import Mathlib

unseal Rat.mul Rat.add Rat.sub Rat.inv

set_option maxRecDepth 100000

/-!
Verification development for the retirement Monte Carlo engine
(`apps/engine/src/simulation/{engine,accounts,guardrails,loan,mortality,optimizer}.py`
and `apps/engine/src/models/schemas.py`).

The kernel `simulate_once` is data-parallel across simulation paths: every
operation is lane-wise, and the only cross-lane outputs are the aggregate
metrics.  We therefore embed it as a per-path state machine over `ℚ`
(exact rational arithmetic in place of IEEE floats), plus aggregation over a
list of paths.  Masked numpy updates (`np.where`, boolean-indexed
assignments) become per-lane `if` expressions with the same conditions;
the in-place `take_from` helper becomes a pure function returning the new
balance and the remaining requested amount.  Machine reals are modelled by
`ℚ`; the literal `1e-9` epsilon of the source is the rational `1/10^9`.
-/

/-- The `1e-9` epsilon used by the engine to separate real shortfalls from
floating point noise. -/
def eps : ℚ := 1 / 1000000000

/-- `accounts.take_from`: withdraw up to `amount` from a balance `arr`;
`take = min(amount, max(arr, 0))`.  Returns `(arr - take, amount - take)`
(the new balance and the remaining amount). -/
def take_from (arr amount : ℚ) : ℚ × ℚ :=
  let take := min amount (max arr 0)
  (arr - take, amount - take)

/-- `guardrails.compute_cuts`, per lane: `cut2` if `dd ≥ dd2`, else `cut1`
if `dd ≥ dd1`, else `0` (the two `np.where` layers compose to this). -/
def compute_cuts (dd dd1 dd2 cut1 cut2 : ℚ) : ℚ :=
  if dd2 ≤ dd then cut2 else if dd1 ≤ dd then cut1 else 0

/-- `loan.amort_payment`: `0` for non-positive principal, else the
closed-form level payment `(r·P)/(1 − (1+r)^(−n))`. -/
def amort_payment (principal rate_real : ℚ) (term_years : ℤ) : ℚ :=
  if principal ≤ 0 then 0
  else (rate_real * principal) / (1 - (1 + rate_real) ^ (-term_years))

/-- `loan.loan_balance_after_k`: `0` for non-positive principal, else
`P·(1+r)^k − pay·((1+r)^k − 1)/r`. -/
def loan_balance_after_k (principal rate_real payment : ℚ) (k : ℤ) : ℚ :=
  if principal ≤ 0 then 0
  else principal * (1 + rate_real) ^ k - payment * (((1 + rate_real) ^ k - 1) / rate_real)

/-- All arguments of `simulate_once` (the full per-call configuration).
`surplus_allocation : str` is embedded as the boolean
`surplus_risky_first` because the code only tests `== "risky_first"`
(everything else falls into the reserve-first branch).  The source's
`partial_year_fraction`, `rm_partial_cover` and `loan_bucket_partial_cover`
are named `part_year_fraction`, `rm_part_cover`, `loan_bucket_part_cover`
here. -/
structure Cfg where
  n_sims : ℕ
  start_portfolio : ℚ
  start_age : ℤ
  part_year_fraction : ℚ
  seed : ℤ
  reserve_years : ℚ
  reserve_cash_fraction : ℚ
  safe_real_return : ℚ
  E : ℚ
  floor_annual_real : ℚ
  income_applies_to_actual_spend : Bool
  ss_annual_real : ℚ
  ss_start_age : ℤ
  earned_income_annual_real : ℚ
  earned_income_start_age : ℤ
  earned_income_end_age : ℤ
  allow_surplus_savings : Bool
  surplus_risky_first : Bool
  dd1 : ℚ
  dd2 : ℚ
  cut1 : ℚ
  cut2 : ℚ
  baseline_e_for_flex : ℚ
  baseline_flex_pre : ℚ
  baseline_net_post_ss : ℚ
  baseline_flex_post : ℚ
  rm_open_age : ℤ
  home_value_real : ℚ
  rm_plf_at_open : ℚ
  rm_limit_real_growth : ℚ
  rm_bal_real_rate : ℚ
  rm_part_cover : ℚ
  rm_repay_rate : ℚ
  payoff_dd_threshold : ℚ
  loan_amount : ℤ
  loan_real_rate : ℚ
  loan_term_years : ℤ
  loan_bucket_real_return : ℚ
  loan_bucket_use_dd : ℚ
  loan_bucket_part_cover : ℚ


/-- `rm_open_t = rm_open_age - start_age` (an `int` in the source; it may be
negative when the RM opens before the simulation starts). -/
def rm_open_t (cfg : Cfg) : ℤ := cfg.rm_open_age - cfg.start_age

/-- `rm_limit_open = home_value_real * rm_plf_at_open`. -/
def rm_limit_open (cfg : Cfg) : ℚ := cfg.home_value_real * cfg.rm_plf_at_open

/-- The level loan payment `pay` precomputed by the kernel. -/
def amort_pay (cfg : Cfg) : ℚ :=
  amort_payment (cfg.loan_amount : ℚ) cfg.loan_real_rate cfg.loan_term_years

/-- `pre_flex_pct = baseline_flex_pre / baseline_e_for_flex` guarded to `0`
on a non-positive denominator. -/
def pre_flex_pct (cfg : Cfg) : ℚ :=
  if 0 < cfg.baseline_e_for_flex then cfg.baseline_flex_pre / cfg.baseline_e_for_flex else 0

/-- `post_flex_pct = baseline_flex_post / baseline_net_post_ss` guarded to
`0` on a non-positive denominator. -/
def post_flex_pct (cfg : Cfg) : ℚ :=
  if 0 < cfg.baseline_net_post_ss then cfg.baseline_flex_post / cfg.baseline_net_post_ss else 0

/-- `engine.build_withdrawals`, as a function of the year index `t`
(the source builds the array entry-by-entry with exactly these cases;
`ages[t] = start_age + t`). -/
def build_withdrawals (cfg : Cfg) (t : ℕ) : ℚ :=
  if cfg.income_applies_to_actual_spend then
    if t = 0 then max 0 (cfg.E * cfg.part_year_fraction) else max 0 cfg.E
  else
    let age : ℤ := cfg.start_age + t
    let ei : ℚ :=
      if cfg.earned_income_annual_real ≤ 0 then 0
      else if age < cfg.earned_income_start_age ∨ cfg.earned_income_end_age < age then 0
      else cfg.earned_income_annual_real
    if t = 0 then
      let ss0 : ℚ :=
        if cfg.ss_start_age ≤ age then cfg.ss_annual_real * cfg.part_year_fraction else 0
      max 0 (cfg.E * cfg.part_year_fraction - ss0 - ei * cfg.part_year_fraction)
    else
      let ss : ℚ := if cfg.ss_start_age ≤ age then cfg.ss_annual_real else 0
      max 0 (cfg.E - ss - ei)

/-- `accounts.safe_targets` on the withdrawal schedule of `cfg`
(`n` is the horizon, the length of the schedule array): targets
`(rcf · R · w[min(t+1, n−1)], (1−rcf) · R · w[min(t+1, n−1)])`. -/
def safe_targets (cfg : Cfg) (n t : ℕ) : ℚ × ℚ :=
  let nxt := build_withdrawals cfg (min (t + 1) (n - 1))
  let tgt_total := cfg.reserve_years * nxt
  let tgt_cash := cfg.reserve_cash_fraction * tgt_total
  (tgt_cash, tgt_total - tgt_cash)

/-- `floor_assets[t]`: the annual floor, scaled by the partial-year fraction
in year 0. -/
def floor_assets (cfg : Cfg) (t : ℕ) : ℚ :=
  if t = 0 then cfg.floor_annual_real * cfg.part_year_fraction else cfg.floor_annual_real

/-- Per-path state of the simulation kernel (one lane of the numpy arrays). -/
structure PathState where
  cash : ℚ
  base_treas : ℚ
  risky : ℚ
  hwm : ℚ
  max_dd_risky : ℚ
  hwm_total : ℚ
  max_dd_total : ℚ
  loan_bucket : ℚ
  loan_bal : ℚ
  rm_limit : ℚ
  rm_bal : ℚ
  rm_ever_used : Bool
  failed : Bool
  fail_idx : ℕ


/-- The per-lane drawdown `np.where(hwm > 0, 1 - risky/hwm, 0)`
(evaluated on the post-growth, post-HWM-update state). -/
def path_drawdown (s : PathState) : ℚ :=
  if 0 < s.hwm then 1 - s.risky / s.hwm else 0

/-- Growth step: risky by the year's return, reserves by the safe rate,
loan bucket by its rate when a loan exists. -/
def grow_phase (cfg : Cfg) (R : ℚ) (s : PathState) : PathState :=
  { s with
    risky := s.risky * (1 + R)
    cash := s.cash * (1 + cfg.safe_real_return)
    base_treas := s.base_treas * (1 + cfg.safe_real_return)
    loan_bucket :=
      if 0 < cfg.loan_amount then s.loan_bucket * (1 + cfg.loan_bucket_real_return)
      else s.loan_bucket }

/-- Drawdown bookkeeping: update `hwm`, `max_dd_risky`, `hwm_total`,
`max_dd_total`.  The total drawdown is `1 − (total_net/hwm_total when
hwm_total > 0 else 0)`, matching the `np.divide(..., where=hwm_total>0)`
with a zero `out` buffer. -/
def dd_phase (s : PathState) : PathState :=
  let hwm := max s.hwm s.risky
  let dd := if 0 < hwm then 1 - s.risky / hwm else 0
  let total_net := s.cash + s.base_treas + s.risky + s.loan_bucket - s.loan_bal
  let hwm_total := max s.hwm_total total_net
  let dd_total := 1 - (if 0 < hwm_total then total_net / hwm_total else 0)
  { s with
    hwm := hwm
    max_dd_risky := max s.max_dd_risky dd
    hwm_total := hwm_total
    max_dd_total := max s.max_dd_total dd_total }

/-- Pre-RM loan payment (only when a loan exists and `t < rm_open_t`):
draw `pay` from cash, base, risky, then from the loan bucket on
unfailed lanes with `dd ≥ loan_bucket_use_dd`; a remaining shortfall
`> 1e-9` on an unfailed lane marks failure; the deterministic balance is
reset to `loan_balance_after_k(..., t+1)` while `t+1 ≤ term`, else `0`.
Note that the cash/base/risky draws are NOT masked by `failed`. -/
def loan_pay_phase (cfg : Cfg) (t : ℕ) (dd : ℚ) (s : PathState) : PathState :=
  if 0 < cfg.loan_amount ∧ (t : ℤ) < rm_open_t cfg then
    let pay := amort_pay cfg
    let p1 := take_from s.cash pay
    let p2 := take_from s.base_treas p1.2
    let p3 := take_from s.risky p2.2
    let take_lb :=
      if cfg.loan_bucket_use_dd ≤ dd ∧ s.failed = false ∧ eps < p3.2 then
        min p3.2 s.loan_bucket
      else 0
    let rem := p3.2 - take_lb
    let k : ℤ := (t : ℤ) + 1
    { s with
      cash := p1.1
      base_treas := p2.1
      risky := p3.1
      loan_bucket := s.loan_bucket - take_lb
      failed := if s.failed = false ∧ eps < rem then true else s.failed
      fail_idx := if s.failed = false ∧ eps < rem then t else s.fail_idx
      loan_bal :=
        if k ≤ cfg.loan_term_years then
          loan_balance_after_k (cfg.loan_amount : ℚ) cfg.loan_real_rate pay k
        else 0 }
  else s

/-- RM open (exactly at `t = rm_open_t`): set the credit limit to
`rm_limit_open·(1+growth)`, and when a loan exists pay off `loan_bal` with
the dd-partitioned draw order (risky-first when `dd ≤ payoff_dd_threshold`,
otherwise RM-first), then base, cash, loan bucket; a residual `> 1e-9`
on an unfailed lane marks failure; finally `loan_bal := 0`.  None of the
payoff draws is masked by `failed`. -/
def rm_open_phase (cfg : Cfg) (t : ℕ) (dd : ℚ) (s : PathState) : PathState :=
  if (t : ℤ) = rm_open_t cfg then
    let limit := rm_limit_open cfg * (1 + cfg.rm_limit_real_growth)
    if 0 < cfg.loan_amount then
      if dd ≤ cfg.payoff_dd_threshold then
        let p1 := take_from s.risky s.loan_bal
        let avail := max 0 (limit - s.rm_bal)
        let take_rm := min p1.2 avail
        let rem1 := p1.2 - take_rm
        let p2 := take_from s.base_treas rem1
        let p3 := take_from s.cash p2.2
        let p4 := take_from s.loan_bucket p3.2
        { s with
          risky := p1.1, rm_limit := limit, rm_bal := s.rm_bal + take_rm
          base_treas := p2.1, cash := p3.1, loan_bucket := p4.1
          failed := if s.failed = false ∧ eps < p4.2 then true else s.failed
          fail_idx := if s.failed = false ∧ eps < p4.2 then t else s.fail_idx
          loan_bal := 0 }
      else
        let avail := max 0 (limit - s.rm_bal)
        let take_rm := min s.loan_bal avail
        let rem1 := s.loan_bal - take_rm
        let p1 := take_from s.risky rem1
        let p2 := take_from s.base_treas p1.2
        let p3 := take_from s.cash p2.2
        let p4 := take_from s.loan_bucket p3.2
        { s with
          risky := p1.1, rm_limit := limit, rm_bal := s.rm_bal + take_rm
          base_treas := p2.1, cash := p3.1, loan_bucket := p4.1
          failed := if s.failed = false ∧ eps < p4.2 then true else s.failed
          fail_idx := if s.failed = false ∧ eps < p4.2 then t else s.fail_idx
          loan_bal := 0 }
    else { s with rm_limit := limit }
  else s

/-- RM accrual for `t ≥ rm_open_t`: limit grows by `rm_limit_real_growth`,
the drawn balance by `rm_bal_real_rate`. -/
def rm_accrual_phase (cfg : Cfg) (t : ℕ) (s : PathState) : PathState :=
  if rm_open_t cfg ≤ (t : ℤ) then
    { s with
      rm_limit := s.rm_limit * (1 + cfg.rm_limit_real_growth)
      rm_bal := s.rm_bal * (1 + cfg.rm_bal_real_rate) }
  else s

/-- Guardrail-adjusted desired spending for year `t` at drawdown `dd`:
`floor_amt + flex_amt·(1 − cut(dd))` with
`flex_amt = min(flex_pct·w[t], w[t])`. -/
def desired_spend (cfg : Cfg) (t : ℕ) (dd : ℚ) : ℚ :=
  let w := build_withdrawals cfg t
  let flex_pct :=
    if cfg.start_age + (t : ℤ) < cfg.ss_start_age then pre_flex_pct cfg else post_flex_pct cfg
  let flex_amt := min (flex_pct * w) w
  let floor_amt := w - flex_amt
  floor_amt + flex_amt * (1 - compute_cuts dd cfg.dd1 cfg.dd2 cfg.cut1 cfg.cut2)

/-- Scalar income at year `t` (only in `income_applies_to_actual_spend`
mode): SS when `age ≥ ss_start_age`, earned income when positive and
`age ∈ [start, end]`; both scaled by the partial-year fraction at `t = 0`. -/
def income_scalar (cfg : Cfg) (t : ℕ) : ℚ :=
  if cfg.income_applies_to_actual_spend then
    let age : ℤ := cfg.start_age + t
    let ei : ℚ :=
      if 0 < cfg.earned_income_annual_real ∧ cfg.earned_income_start_age ≤ age ∧
          age ≤ cfg.earned_income_end_age then
        cfg.earned_income_annual_real
      else 0
    let ss : ℚ := if cfg.ss_start_age ≤ age then cfg.ss_annual_real else 0
    if t = 0 then ss * cfg.part_year_fraction + ei * cfg.part_year_fraction else ss + ei
  else 0

/-- Feasibility ceiling
`cash + base + max(risky,0) + max(0, rm_limit − rm_bal) + accessible_loan`
(the loan bucket counts only when `dd ≥ loan_bucket_use_dd`).  It is
computed from the pre-income state in the source. -/
def max_feasible (cfg : Cfg) (dd : ℚ) (s : PathState) : ℚ :=
  s.cash + s.base_treas + max s.risky 0 + max 0 (s.rm_limit - s.rm_bal) +
    (if cfg.loan_bucket_use_dd ≤ dd then s.loan_bucket else 0)

/-- Income application: when positive scalar income exists, it lowers the
asset-funded desired spend and floor, and any surplus over the desired
spend is allocated (risky-first, or reserve-first up to the safe targets
with the remainder to risky).  Returns the updated state and the pair
`(asset_desired, floor_need_assets)`. -/
def income_phase (cfg : Cfg) (n t : ℕ) (dd : ℚ) (s : PathState) :
    PathState × ℚ × ℚ :=
  let desired := desired_spend cfg t dd
  let inc := income_scalar cfg t
  if 0 < inc then
    let asset_desired := max 0 (desired - inc)
    let floor_need_assets := max 0 (floor_assets cfg t - inc)
    let surplus := max 0 (inc - desired)
    let s' :=
      if cfg.surplus_risky_first then { s with risky := s.risky + surplus }
      else
        let tgt := safe_targets cfg n t
        let add_cash := min (max 0 (tgt.1 - s.cash)) surplus
        let surplus1 := surplus - add_cash
        let add_base := min (max 0 (tgt.2 - s.base_treas)) surplus1
        { s with
          cash := s.cash + add_cash
          base_treas := s.base_treas + add_base
          risky := s.risky + (surplus1 - add_base) }
    (s', asset_desired, floor_need_assets)
  else (s, desired, floor_assets cfg t)

/-- Funding-order leg (a): draw the remainder from cash. -/
def fund_cash (sr : PathState × ℚ) : PathState × ℚ :=
  let p := take_from sr.1.cash sr.2
  ({ sr.1 with cash := p.1 }, p.2)

/-- Funding-order leg (b): draw the remainder from base treasuries. -/
def fund_base (sr : PathState × ℚ) : PathState × ℚ :=
  let p := take_from sr.1.base_treas sr.2
  ({ sr.1 with base_treas := p.1 }, p.2)

/-- Funding-order leg (c): partial-cover loan-bucket draw, only on unfailed
lanes with `dd ≥ loan_bucket_use_dd` and a positive bucket. -/
def fund_lb1 (cfg : Cfg) (dd : ℚ) (failed : Bool) (sr : PathState × ℚ) :
    PathState × ℚ :=
  let take :=
    if cfg.loan_bucket_use_dd ≤ dd ∧ failed = false ∧ 0 < sr.1.loan_bucket then
      min (sr.2 * cfg.loan_bucket_part_cover) sr.1.loan_bucket
    else 0
  ({ sr.1 with loan_bucket := sr.1.loan_bucket - take }, sr.2 - take)

/-- Funding-order leg (d): partial-cover RM draw, only on unfailed lanes
with `dd ≥ dd2`, clipped by the available credit. -/
def fund_rm1 (cfg : Cfg) (dd : ℚ) (failed : Bool) (sr : PathState × ℚ) :
    PathState × ℚ :=
  let avail := max 0 (sr.1.rm_limit - sr.1.rm_bal)
  let take :=
    if cfg.dd2 ≤ dd ∧ failed = false then min (sr.2 * cfg.rm_part_cover) avail else 0
  ({ sr.1 with rm_bal := sr.1.rm_bal + take }, sr.2 - take)

/-- Funding-order leg (e): draw the remainder from risky. -/
def fund_risky (sr : PathState × ℚ) : PathState × ℚ :=
  let p := take_from sr.1.risky sr.2
  ({ sr.1 with risky := p.1 }, p.2)

/-- Funding-order leg (f): full RM backfill up to the available credit
(unmasked in the source; the remainder is `0` on failed lanes). -/
def fund_rm2 (sr : PathState × ℚ) : PathState × ℚ :=
  let avail := max 0 (sr.1.rm_limit - sr.1.rm_bal)
  let take := min sr.2 avail
  ({ sr.1 with rm_bal := sr.1.rm_bal + take }, sr.2 - take)

/-- Funding-order leg (g): full loan-bucket backfill on unfailed, eligible
lanes with a residual `> 1e-9`. -/
def fund_lb2 (cfg : Cfg) (dd : ℚ) (failed : Bool) (sr : PathState × ℚ) :
    PathState × ℚ :=
  let take :=
    if cfg.loan_bucket_use_dd ≤ dd ∧ failed = false ∧ eps < sr.2 then
      min sr.2 sr.1.loan_bucket
    else 0
  ({ sr.1 with loan_bucket := sr.1.loan_bucket - take }, sr.2 - take)

/-- Feasibility-failure check, spend amount, and the full funding order.
`mf` is the feasibility ceiling computed before income application,
`ad`/`fna` the asset-funded desired spend and floor need.  Unfailed lanes
spend `max(min(ad, mf), fna)`; failed lanes spend 0. -/
def spend_phase (cfg : Cfg) (t : ℕ) (dd mf ad fna : ℚ) (s : PathState) :
    PathState :=
  let failed' := if s.failed = false ∧ mf < fna - eps then true else s.failed
  let fi' := if s.failed = false ∧ mf < fna - eps then t else s.fail_idx
  let sa := if failed' = false then max (min ad mf) fna else 0
  let s0 := { s with failed := failed', fail_idx := fi' }
  (fund_lb2 cfg dd failed'
    (fund_rm2 (fund_risky (fund_rm1 cfg dd failed'
      (fund_lb1 cfg dd failed' (fund_base (fund_cash (s0, sa)))))))).1

/-- Reserve refill in good years (`dd < dd1`, unfailed): move up to the
cash target, then up to the base target, from non-negative risky. -/
def refill_phase (cfg : Cfg) (n t : ℕ) (dd : ℚ) (s : PathState) : PathState :=
  let tgt := safe_targets cfg n t
  let add_cash :=
    if dd < cfg.dd1 ∧ s.failed = false then
      min (max 0 (tgt.1 - s.cash)) (max s.risky 0)
    else 0
  let risky1 := s.risky - add_cash
  let add_base :=
    if dd < cfg.dd1 ∧ s.failed = false then
      min (max 0 (tgt.2 - s.base_treas)) (max risky1 0)
    else 0
  { s with
    cash := s.cash + add_cash
    base_treas := s.base_treas + add_base
    risky := risky1 - add_base }

/-- RM repayment at new highs (`dd < 1e-9`, good year, positive RM balance):
repay `rm_bal·rm_repay_rate` capped by non-negative risky. -/
def rm_repay_phase (cfg : Cfg) (dd : ℚ) (s : PathState) : PathState :=
  let amt :=
    if dd < eps ∧ (dd < cfg.dd1 ∧ s.failed = false) ∧ 0 < s.rm_bal then
      s.rm_bal * cfg.rm_repay_rate
    else 0
  let take := min amt (max s.risky 0)
  { s with risky := s.risky - take, rm_bal := s.rm_bal - take }

/-- Latch `rm_ever_used` whenever the RM balance is positive at year end. -/
def latch_phase (s : PathState) : PathState :=
  { s with rm_ever_used := if 0 < s.rm_bal then true else s.rm_ever_used }

/-- One year `t` of the kernel loop on a single path with return `R`:
growth, drawdown bookkeeping, pre-RM loan payment, RM open, RM accrual,
income application, feasibility/spend/funding, reserve refill, RM
repayment, RM-usage latch — in the source's order.  The drawdown is
computed once after growth and used (stale) by all later steps of the
year, exactly as in the source. -/
def step_year (cfg : Cfg) (n t : ℕ) (R : ℚ) (s : PathState) : PathState :=
  let s1 := dd_phase (grow_phase cfg R s)
  let dd := path_drawdown s1
  let s2 := loan_pay_phase cfg t dd s1
  let s3 := rm_open_phase cfg t dd s2
  let s4 := rm_accrual_phase cfg t s3
  let mf := max_feasible cfg dd s4
  let ia := income_phase cfg n t dd s4
  let s6 := spend_phase cfg t dd mf ia.2.1 ia.2.2 ia.1
  let s7 := refill_phase cfg n t dd s6
  latch_phase (rm_repay_phase cfg dd s7)

/-- Initial per-path state: reserve seeded from the year-0 safe targets
capped by the portfolio, remainder to risky, loan bucket and balance
seeded from `loan_amount` when positive; `fail_idx` starts at the horizon
sentinel `n`. -/
def init_state (cfg : Cfg) (n : ℕ) : PathState :=
  let tgt := safe_targets cfg n 0
  let init_safe := min (tgt.1 + tgt.2) cfg.start_portfolio
  let cash0 := min tgt.1 init_safe
  let base0 := max 0 (init_safe - cash0)
  let risky0 := cfg.start_portfolio - init_safe
  let lb0 : ℚ := if 0 < cfg.loan_amount then (cfg.loan_amount : ℚ) else 0
  { cash := cash0
    base_treas := base0
    risky := risky0
    hwm := risky0
    max_dd_risky := 0
    hwm_total := cash0 + base0 + risky0 + lb0 - lb0
    max_dd_total := 0
    loan_bucket := lb0
    loan_bal := lb0
    rm_limit := 0
    rm_bal := 0
    rm_ever_used := false
    failed := false
    fail_idx := n }

/-- The path state after the first `t` years (year `t'` uses return
`rets[t']`; years beyond the return row leave the state unchanged). -/
def state_after (cfg : Cfg) (n : ℕ) (rets : List ℚ) : ℕ → PathState
  | 0 => init_state cfg n
  | t + 1 =>
    if t < rets.length then
      step_year cfg n t (rets.getD t 0) (state_after cfg n rets t)
    else state_after cfg n rets t

/-- Run one path over its whole return row. -/
def simulate_path (cfg : Cfg) (n : ℕ) (rets : List ℚ) : PathState :=
  state_after cfg n rets rets.length

/-- SSA male life table (2022), rows `(age, qx, lx)` for ages 53–99,
conditional on alive at 53 — the `SSA_ROWS` constant. -/
def ssa_rows : List (ℤ × ℚ × ℚ) :=
  [(53, 7073/1000000, 88825), (54, 7675/1000000, 88196), (55, 8348/1000000, 87520),
   (56, 9051/1000000, 86789), (57, 9822/1000000, 86003), (58, 10669/1000000, 85159),
   (59, 11548/1000000, 84250), (60, 12458/1000000, 83277), (61, 13403/1000000, 82240),
   (62, 14450/1000000, 81138), (63, 15571/1000000, 79965), (64, 16737/1000000, 78720),
   (65, 17897/1000000, 77402), (66, 19017/1000000, 76017), (67, 20213/1000000, 74572),
   (68, 21569/1000000, 73064), (69, 23088/1000000, 71488), (70, 24828/1000000, 69838),
   (71, 26705/1000000, 68104), (72, 28761/1000000, 66285), (73, 31116/1000000, 64379),
   (74, 33861/1000000, 62376), (75, 37088/1000000, 60263), (76, 41126/1000000, 58028),
   (77, 45241/1000000, 55642), (78, 49793/1000000, 53125), (79, 54768/1000000, 50479),
   (80, 60660/1000000, 47715), (81, 67027/1000000, 44820), (82, 73999/1000000, 41816),
   (83, 81737/1000000, 38722), (84, 90458/1000000, 35557), (85, 100525/1000000, 32340),
   (86, 111793/1000000, 29089), (87, 124494/1000000, 25837), (88, 138398/1000000, 22621),
   (89, 153207/1000000, 19490), (90, 169704/1000000, 16504), (91, 187963/1000000, 13703),
   (92, 208395/1000000, 11128), (93, 230808/1000000, 8809), (94, 253914/1000000, 6776),
   (95, 277402/1000000, 5055), (96, 300882/1000000, 3653), (97, 324326/1000000, 2554),
   (98, 347332/1000000, 1726), (99, 369430/1000000, 1126)]

/-- The life-table ages (first components of `ssa_rows`). -/
def mortality_ages : List ℤ := ssa_rows.map (·.1)

/-- `dx = lx·qx` per row. -/
def mortality_dx : List ℚ := ssa_rows.map (fun r => r.2.2 * r.2.1)

/-- `mortality_weights`'s probability vector: `p = (dx/lx[0])` normalized by
its own sum, exactly as the source computes it. -/
def mortality_p : List ℚ :=
  let l0 := (ssa_rows.headD (0, 0, 0)).2.2
  let p_raw := mortality_dx.map (· / l0)
  p_raw.map (· / p_raw.sum)

/-- `mortality.mortality_weights`: the pair (ages, normalized death
weights). -/
def mortality_weights : List ℤ × List ℚ := (mortality_ages, mortality_p)

/-- `ruin_by_t[t] = mean(fail_idx ≤ t)` over the per-path failure years. -/
def ruin_by_t (fail_idx : List ℕ) (t : ℕ) : ℚ :=
  ((fail_idx.countP fun x => decide (x ≤ t)) : ℚ) / (fail_idx.length : ℚ)

/-- The model-year index for age `a`: the index of `a` in `ages_model`
(last occurrence, mirroring the dict comprehension) or `n_years − 1` when
absent. -/
def t_of_age (ages_model : List ℤ) (a : ℤ) : ℕ :=
  ((List.range ages_model.length).foldl
    (fun acc t => if ages_model.getD t 0 = a then some t else acc) none).getD
    (ages_model.length - 1)

/-- `mortality.death_weighted_success`: returns
`(Σ p_death·(1 − ruin_by_age), mean(fail_idx ≥ n_years))`. -/
def death_weighted_success (fail_idx : List ℕ) (ages_model : List ℤ) : ℚ × ℚ :=
  let n := ages_model.length
  let ruin_by_age := mortality_ages.map fun a => ruin_by_t fail_idx (t_of_age ages_model a)
  let p_dw := (List.zipWith (fun p r => p * (1 - r)) mortality_p ruin_by_age).sum
  let p99 := ((fail_idx.countP fun x => decide (n ≤ x)) : ℚ) / (fail_idx.length : ℚ)
  (p_dw, p99)

/-- Sample mean of a list (`np.mean`; `0` on the empty list, where numpy
would produce NaN). -/
def meanQ (l : List ℚ) : ℚ := l.sum / (l.length : ℚ)

/-- Sample median of a list (`np.median`): middle element of the sorted
list, or the average of the two middle elements for even length; `0` on
the empty list, where numpy would produce NaN. -/
def medianQ (l : List ℚ) : ℚ :=
  let s := l.insertionSort (· ≤ ·)
  let n := l.length
  if n = 0 then 0
  else if n % 2 = 1 then s.getD (n / 2) 0
  else (s.getD (n / 2 - 1) 0 + s.getD (n / 2) 0) / 2

/-- Terminal `total_net_end = cash + base_treas + risky + loan_bucket −
loan_bal` of one path. -/
def total_net_end (s : PathState) : ℚ :=
  s.cash + s.base_treas + s.risky + s.loan_bucket - s.loan_bal

/-- The fixed-schema metrics record returned by `simulate_once`. -/
structure Metrics where
  p_success_death_weighted : ℚ
  p_success_to_age_99 : ℚ
  median_max_dd_risky : ℚ
  median_max_dd_total : ℚ
  home_equity_remaining_median : ℚ
  p_any_rm_draw : ℚ
  rm_balance_end_median : ℚ
  risky_end_median : ℚ
  total_net_end_median : ℚ
  net_worth_end_median : ℚ


/-- `engine.simulate_once`: run every path of the returns matrix (row `i` =
path `i`, column `t` = year `t`) and aggregate the ten metrics. -/
def simulate_once (cfg : Cfg) (returns : List (List ℚ)) : Metrics :=
  let n := (returns.headD []).length
  let finals := returns.map (simulate_path cfg n)
  let fail_idx := finals.map (·.fail_idx)
  let ages_model := (List.range n).map fun t => cfg.start_age + (t : ℤ)
  let dws := death_weighted_success fail_idx ages_model
  let home_eq := finals.map fun s => max 0 (cfg.home_value_real - s.rm_bal)
  { p_success_death_weighted := dws.1
    p_success_to_age_99 := dws.2
    median_max_dd_risky := medianQ (finals.map (·.max_dd_risky))
    median_max_dd_total := medianQ (finals.map (·.max_dd_total))
    home_equity_remaining_median := medianQ home_eq
    p_any_rm_draw := meanQ (finals.map fun s => if s.rm_ever_used then (1 : ℚ) else 0)
    rm_balance_end_median := medianQ (finals.map (·.rm_bal))
    risky_end_median := medianQ (finals.map (·.risky))
    total_net_end_median := medianQ (finals.map total_net_end)
    net_worth_end_median :=
      medianQ (finals.map fun s =>
        total_net_end s + max 0 (cfg.home_value_real - s.rm_bal)) }

/-- The optimizer's success-metric selector (`optimize_success_metric`);
any string other than the three alternatives falls back to
`death_weighted` in the source, so four constructors suffice. -/
inductive OptMetric where
  | death_weighted
  | age_99
  | both_min
  | both_weighted


/-- `optimizer.find_max_E`'s inner `objective_p`. -/
def objective_p (m : OptMetric) (both_weight : ℚ) (metrics : Metrics) : ℚ :=
  let p_dw := metrics.p_success_death_weighted
  let p99 := metrics.p_success_to_age_99
  match m with
  | .age_99 => p99
  | .both_min => min p_dw p99
  | .both_weighted => both_weight * p_dw + (1 - both_weight) * p99
  | .death_weighted => p_dw

/-- The bracket-expansion loop of `find_max_E`:
`while objective(hi) ≥ target and hi < 600000: lo, hi = hi, int(hi·1.25)`.
`int(hi * 1.25)` is `(5·hi)` divided by `4` with truncation toward zero
(`Int.tdiv`, matching Python's `int()` on the exact float `hi·1.25`).
Recursion is fuelled for structural totality: each iteration requires
`hi < tdiv (5·hi) 4` (which forces `4 ≤ hi`) and `hi < 600000`, so `hi`
strictly increases and the fuel of `600001` supplied by
`find_max_E_full` is never exhausted on a terminating run of the source
(`hi ≤ 3` with a passing objective makes the Python loop spin forever). -/
def bracket_expand (sim : ℤ → Metrics) (objv : Metrics → ℚ) (target : ℚ) :
    ℕ → ℤ → Metrics → ℤ → Metrics → ℤ × Metrics × ℤ × Metrics
  | 0, lo, mlo, hi, mhi => (lo, mlo, hi, mhi)
  | fuel + 1, lo, mlo, hi, mhi =>
    if target ≤ objv mhi ∧ hi < 600000 then
      let hi' := Int.tdiv (5 * hi) 4
      if hi < hi' then bracket_expand sim objv target fuel hi mhi hi' (sim hi')
      else (lo, mlo, hi, mhi)
    else (lo, mlo, hi, mhi)

/-- The bisection loop of `find_max_E`: a fixed number of iterations of
`mid = (lo + hi) // 2` (Python floor division; `Int./` here is Euclidean
division, which agrees with floor division for the positive divisor 2),
moving `lo` up on success and
`hi` to `mid − 1` on failure, carrying the metrics of the latest passing
point. -/
def bisect_loop (sim : ℤ → Metrics) (objv : Metrics → ℚ) (target : ℚ) :
    ℕ → ℤ → Metrics → ℤ → ℤ × Metrics × ℤ
  | 0, lo, mlo, hi => (lo, mlo, hi)
  | iters + 1, lo, mlo, hi =>
    let mid := (lo + hi) / 2
    let mm := sim mid
    if target ≤ objv mm then bisect_loop sim objv target iters mid mm hi
    else bisect_loop sim objv target iters lo mlo (mid - 1)

/-- `find_max_E` with its intermediate bracket state exposed: returns
`(lo_final, metrics_final, hi_final, hi_bracket)` where `hi_bracket` is
the bracket-expansion loop's final `hi` (equal to `e_hi` in the degenerate
case). -/
def find_max_E_full (sim : ℤ → Metrics) (objv : Metrics → ℚ) (target : ℚ)
    (e_lo e_hi : ℤ) (e_search_iters : ℕ) : ℤ × Metrics × ℤ × ℤ :=
  let mlo := sim e_lo
  if objv mlo < target then (e_lo, mlo, e_hi, e_hi)
  else
    let mhi := sim e_hi
    let br := bracket_expand sim objv target 600001 e_lo mlo e_hi mhi
    let bi := bisect_loop sim objv target e_search_iters br.1 br.2.1 br.2.2.1
    (bi.1, bi.2.1, bi.2.2, br.2.2.1)

/-- `optimizer.find_max_E` proper: the returned `(E, metrics)` pair. -/
def find_max_E (sim : ℤ → Metrics) (objv : Metrics → ℚ) (target : ℚ)
    (e_lo e_hi : ℤ) (e_search_iters : ℕ) : ℤ × Metrics :=
  let r := find_max_E_full sim objv target e_lo e_hi e_search_iters
  (r.1, r.2.1)

/-- Evaluation of the kernel at spending level `e` on a fixed returns
matrix — the `simulate_once(returns=returns, E=..., **sim_kwargs)` closure
the optimizer bisects over. -/
def kernel_sim (cfg : Cfg) (returns : List (List ℚ)) (e : ℤ) : Metrics :=
  simulate_once { cfg with E := (e : ℚ) } returns

/-- The value-carrying fields of `schemas.ScenarioConfig` that §7's
configuration-error list concerns, with the model's remaining fields
elided to a representative tail (the pydantic model declares ~40 plain
fields; none carries a constraint). -/
structure ScenarioConfig where
  seed : ℤ
  n_sims : ℤ
  start_age : ℤ
  part_year_fraction : ℚ
  return_mu_real : ℚ
  return_vol_real : ℚ
  e_fixed : ℚ
  dd1 : ℚ
  dd2 : ℚ
  cut1 : ℚ
  cut2 : ℚ
  reserve_cash_fraction : ℚ
  floor_annual_real : ℚ


/-- Boundary acceptance of a scenario configuration.  The pydantic model
`ScenarioConfig` declares every field as a plain typed field with a
default — no `Field` bounds, no validators — and `main._run_simulation`
invokes the kernel without any checks, so every well-typed configuration
is accepted. -/
def scenario_accepts (_c : ScenarioConfig) : Bool := true

/-- The §7 configuration-error conditions (from the spec's words):
`dd1 ≥ dd2`, `cut1`/`cut2` outside `[0,1]`, `reserve_cash_fraction`
outside `[0,1]`, negative `n_sims`/`n_years` (with
`n_years = 99 − start_age + 1`), or `start_age > 99`. -/
def config_violations (c : ScenarioConfig) : Bool :=
  decide (c.dd2 ≤ c.dd1) || decide (c.cut1 < 0) || decide (1 < c.cut1) ||
  decide (c.cut2 < 0) || decide (1 < c.cut2) ||
  decide (c.reserve_cash_fraction < 0) || decide (1 < c.reserve_cash_fraction) ||
  decide (c.n_sims < 0) || decide (99 - c.start_age + 1 < 0) || decide (99 < c.start_age)

/-! ## Shared concrete configurations used by counterexamples and witnesses -/

/-- A minimal baseline configuration: one path, everything zeroed or inert
(no income, no loan, RM far in the future, guardrail bands above any
achievable drawdown). -/
def cfg0 : Cfg :=
  { n_sims := 1, start_portfolio := 0, start_age := 60, part_year_fraction := 1,
    seed := 0, reserve_years := 0, reserve_cash_fraction := 0, safe_real_return := 0,
    E := 0, floor_annual_real := 0, income_applies_to_actual_spend := true,
    ss_annual_real := 0, ss_start_age := 200, earned_income_annual_real := 0,
    earned_income_start_age := 0, earned_income_end_age := 0,
    allow_surplus_savings := false, surplus_risky_first := false,
    dd1 := 1, dd2 := 2, cut1 := 0, cut2 := 0,
    baseline_e_for_flex := 0, baseline_flex_pre := 0,
    baseline_net_post_ss := 0, baseline_flex_post := 0,
    rm_open_age := 200, home_value_real := 0, rm_plf_at_open := 0,
    rm_limit_real_growth := 0, rm_bal_real_rate := 0, rm_part_cover := 0,
    rm_repay_rate := 0, payoff_dd_threshold := 0,
    loan_amount := 0, loan_real_rate := 0, loan_term_years := 0,
    loan_bucket_real_return := 0, loan_bucket_use_dd := 10,
    loan_bucket_part_cover := 0 }

/-! ## C9 — loan amortization helpers -/

/-- C9: for `P ≤ 0` both helpers return `0`; for `P > 0` (and `r ≠ 0` with
`(1+r)^(−n) ≠ 1` where the claim assumes them) `amort_payment` equals
`(r·P)/(1 − (1+r)^(−n))` and `loan_balance_after_k` equals
`P·(1+r)^k − pay·((1+r)^k − 1)/r`, with `loan_balance_after_k(P,r,pay,0) = P`. -/
theorem C9_loan_math (P r pay : ℚ) (n k : ℤ) :
    (P ≤ 0 → amort_payment P r n = 0 ∧ loan_balance_after_k P r pay k = 0) ∧
    (0 < P → r ≠ 0 → (1 + r) ^ (-n) ≠ 1 →
      amort_payment P r n = (r * P) / (1 - (1 + r) ^ (-n))) ∧
    (0 < P → r ≠ 0 →
      loan_balance_after_k P r pay k = P * (1 + r) ^ k - pay * (((1 + r) ^ k - 1) / r) ∧
      loan_balance_after_k P r pay 0 = P) := by
  refine ⟨fun h => ⟨?_, ?_⟩, fun hP _ _ => ?_, fun hP _ => ⟨?_, ?_⟩⟩
  · simp [amort_payment, h]
  · simp [loan_balance_after_k, h]
  · simp [amort_payment, not_le.mpr hP]
  · simp [loan_balance_after_k, not_le.mpr hP]
  · simp [loan_balance_after_k, not_le.mpr hP]

/-- C9 witness: the theorem instantiated at `P = -5` and at
`P = 100, r = 1, n = 2, pay = 75, k = 3`, hypotheses discharged. -/
theorem C9_loan_math_witness :
    ((-5 : ℚ) ≤ 0 ∧ (0 : ℚ) < 100 ∧ (1 : ℚ) ≠ 0 ∧ ((1 : ℚ) + 1) ^ (-(2 : ℤ)) ≠ 1) ∧
    amort_payment (-5) 1 2 = 0 ∧ loan_balance_after_k (-5) 1 75 3 = 0 ∧
    amort_payment 100 1 2 = (1 * 100) / (1 - ((1 : ℚ) + 1) ^ (-(2 : ℤ))) ∧
    loan_balance_after_k 100 1 75 3 =
      100 * ((1 : ℚ) + 1) ^ (3 : ℤ) - 75 * ((((1 : ℚ) + 1) ^ (3 : ℤ) - 1) / 1) ∧
    loan_balance_after_k 100 1 75 0 = 100 := by
  have h1 : ((1 : ℚ) + 1) ^ (-(2 : ℤ)) ≠ 1 := by norm_num
  refine ⟨⟨by norm_num, by norm_num, one_ne_zero, h1⟩, ?_, ?_, ?_, ?_, ?_⟩
  · exact ((C9_loan_math (-5) 1 75 2 3).1 (by norm_num)).1
  · exact ((C9_loan_math (-5) 1 75 2 3).1 (by norm_num)).2
  · exact (C9_loan_math 100 1 75 2 3).2.1 (by norm_num) one_ne_zero h1
  · exact ((C9_loan_math 100 1 75 2 3).2.2 (by norm_num) one_ne_zero).1
  · exact ((C9_loan_math 100 1 75 2 3).2.2 (by norm_num) one_ne_zero).2

/-! ## C6 — boundary validation of configurations -/

/-- A configuration violating every §7 constraint at once:
`dd1 ≥ dd2`, cuts outside `[0,1]`, `reserve_cash_fraction < 0`,
`n_sims < 0`, `start_age > 99`. -/
def bad_scenario : ScenarioConfig :=
  { seed := 0, n_sims := -5, start_age := 150, part_year_fraction := 1,
    return_mu_real := 0, return_vol_real := 0, e_fixed := 0,
    dd1 := 1/2, dd2 := 1/4, cut1 := 2, cut2 := -1,
    reserve_cash_fraction := -1, floor_annual_real := 0 }

/-- C6 counterexample: a configuration with every listed violation is
nevertheless accepted at the boundary (the pydantic model has no value
constraints and `_run_simulation` performs no checks), contradicting the
claim that such inputs are rejected before the kernel runs. -/
theorem C6_counterexample :
    config_violations bad_scenario = true ∧ scenario_accepts bad_scenario = true := by
  decide

/-- C6 amended: no boundary rejection exists — every well-typed
configuration, in particular every one violating the §7 constraint list,
is accepted and handed to the kernel. -/
theorem C6_amended (c : ScenarioConfig) (h : config_violations c = true) :
    scenario_accepts c = true := rfl

/-- C6 amended witness: the amended theorem applied to the concrete
violating configuration. -/
theorem C6_amended_witness :
    config_violations bad_scenario = true ∧ scenario_accepts bad_scenario = true :=
  ⟨by decide, C6_amended bad_scenario (by decide)⟩

/-! ## C10 — `allow_surplus_savings` and `seed` are dead parameters -/

/-- `allow_surplus_savings` never occurs in `grow_phase`. -/
lemma dead_params_grow (cfg : Cfg) (b : Bool) (sd : ℤ) (R : ℚ) (s : PathState) :
    grow_phase { cfg with allow_surplus_savings := b, seed := sd } R s =
      grow_phase cfg R s := rfl

/-- The dead parameters never occur in `loan_pay_phase`. -/
lemma dead_params_loan_pay (cfg : Cfg) (b : Bool) (sd : ℤ) (t : ℕ) (dd : ℚ) (s : PathState) :
    loan_pay_phase { cfg with allow_surplus_savings := b, seed := sd } t dd s =
      loan_pay_phase cfg t dd s := rfl

/-- The dead parameters never occur in `rm_open_phase`. -/
lemma dead_params_rm_open (cfg : Cfg) (b : Bool) (sd : ℤ) (t : ℕ) (dd : ℚ) (s : PathState) :
    rm_open_phase { cfg with allow_surplus_savings := b, seed := sd } t dd s =
      rm_open_phase cfg t dd s := rfl

/-- The dead parameters never occur in `rm_accrual_phase`. -/
lemma dead_params_rm_accrual (cfg : Cfg) (b : Bool) (sd : ℤ) (t : ℕ) (s : PathState) :
    rm_accrual_phase { cfg with allow_surplus_savings := b, seed := sd } t s =
      rm_accrual_phase cfg t s := rfl

/-- The dead parameters never occur in `max_feasible`. -/
lemma dead_params_max_feasible (cfg : Cfg) (b : Bool) (sd : ℤ) (dd : ℚ) (s : PathState) :
    max_feasible { cfg with allow_surplus_savings := b, seed := sd } dd s =
      max_feasible cfg dd s := rfl

/-- The dead parameters never occur in `income_phase` (the surplus branch
reads `surplus_risky_first`, not `allow_surplus_savings`). -/
lemma dead_params_income (cfg : Cfg) (b : Bool) (sd : ℤ) (n t : ℕ) (dd : ℚ) (s : PathState) :
    income_phase { cfg with allow_surplus_savings := b, seed := sd } n t dd s =
      income_phase cfg n t dd s := rfl

/-- The dead parameters never occur in `spend_phase`. -/
lemma dead_params_spend (cfg : Cfg) (b : Bool) (sd : ℤ) (t : ℕ) (dd mf ad fna : ℚ)
    (s : PathState) :
    spend_phase { cfg with allow_surplus_savings := b, seed := sd } t dd mf ad fna s =
      spend_phase cfg t dd mf ad fna s := rfl

/-- The dead parameters never occur in `refill_phase`. -/
lemma dead_params_refill (cfg : Cfg) (b : Bool) (sd : ℤ) (n t : ℕ) (dd : ℚ) (s : PathState) :
    refill_phase { cfg with allow_surplus_savings := b, seed := sd } n t dd s =
      refill_phase cfg n t dd s := rfl

/-- The dead parameters never occur in `rm_repay_phase`. -/
lemma dead_params_rm_repay (cfg : Cfg) (b : Bool) (sd : ℤ) (dd : ℚ) (s : PathState) :
    rm_repay_phase { cfg with allow_surplus_savings := b, seed := sd } dd s =
      rm_repay_phase cfg dd s := rfl

/-- The dead parameters never occur in `init_state`. -/
lemma dead_params_init (cfg : Cfg) (b : Bool) (sd : ℤ) (n : ℕ) :
    init_state { cfg with allow_surplus_savings := b, seed := sd } n = init_state cfg n := rfl

/-- The dead parameters never occur in a whole year step. -/
lemma dead_params_step (cfg : Cfg) (b : Bool) (sd : ℤ) (n t : ℕ) (R : ℚ) (s : PathState) :
    step_year { cfg with allow_surplus_savings := b, seed := sd } n t R s =
      step_year cfg n t R s := by
  simp only [step_year, dead_params_grow, dead_params_loan_pay, dead_params_rm_open,
    dead_params_rm_accrual, dead_params_max_feasible, dead_params_income,
    dead_params_spend, dead_params_refill, dead_params_rm_repay]

/-- The dead parameters never influence the state trajectory. -/
lemma dead_params_state_after (cfg : Cfg) (b : Bool) (sd : ℤ) (n : ℕ) (rets : List ℚ)
    (t : ℕ) :
    state_after { cfg with allow_surplus_savings := b, seed := sd } n rets t =
      state_after cfg n rets t := by
  induction t with
  | zero => exact dead_params_init cfg b sd n
  | succ t ih => simp only [state_after, ih, dead_params_step]

/-- The dead parameters never influence a whole path run. -/
lemma dead_params_path (cfg : Cfg) (b : Bool) (sd : ℤ) (n : ℕ) (rets : List ℚ) :
    simulate_path { cfg with allow_surplus_savings := b, seed := sd } n rets =
      simulate_path cfg n rets := by
  unfold simulate_path
  exact dead_params_state_after cfg b sd n rets rets.length

/-- C10: two kernel calls differing only in `allow_surplus_savings` and/or
`seed` (returns matrix and all other arguments identical) produce
identical metrics: neither parameter occurs in any computation of
`simulate_once`. -/
theorem C10_dead_params (cfg : Cfg) (returns : List (List ℚ)) (b : Bool) (sd : ℤ) :
    simulate_once { cfg with allow_surplus_savings := b, seed := sd } returns =
      simulate_once cfg returns := by
  have h : simulate_path { cfg with allow_surplus_savings := b, seed := sd } =
      simulate_path cfg :=
    funext fun n => funext fun rets => dead_params_path cfg b sd n rets
  simp only [simulate_once, h]

/-! ## C7 — mortality weights and death-weighted success -/

/-- Counting entries `≥ n` equals counting entries `= n` when all entries
are `≤ n`. -/
lemma countP_ge_eq_countP_eq (l : List ℕ) (n : ℕ) (h : ∀ x ∈ l, x ≤ n) :
    (l.countP fun x => decide (n ≤ x)) = (l.countP fun x => decide (x = n)) := by
  induction l with
  | nil => rfl
  | cons a l ih =>
    have ha : a ≤ n := h a (List.mem_cons_self a l)
    have hl := ih fun x hx => h x (List.mem_cons_of_mem a hx)
    simp only [List.countP_cons, hl]
    have : (decide (n ≤ a)) = (decide (a = n)) := by
      rcases Nat.lt_or_ge a n with hlt | hge
      · simp [Nat.not_le.mpr hlt, Nat.ne_of_lt hlt]
      · have : a = n := Nat.le_antisymm ha hge
        simp [this]
    rw [this]

/-- `ruin_by_t` is a probability: it lies in `[0, 1]`. -/
lemma ruin_by_t_bounds (fi : List ℕ) (t : ℕ) :
    0 ≤ ruin_by_t fi t ∧ ruin_by_t fi t ≤ 1 := by
  unfold ruin_by_t
  rcases Nat.eq_zero_or_pos fi.length with h0 | hpos
  · simp [h0]
  · constructor
    · positivity
    · rw [div_le_one (by exact_mod_cast hpos)]
      exact_mod_cast List.countP_le_length _

/-- A nonnegatively weighted sum of `1 − r` terms with `r ∈ [0,1]` is
nonnegative and bounded by the sum of the weights. -/
lemma weighted_sum_bounds :
    ∀ (ps rs : List ℚ), (∀ p ∈ ps, 0 ≤ p) → (∀ r ∈ rs, 0 ≤ r ∧ r ≤ 1) →
      0 ≤ (List.zipWith (fun p r => p * (1 - r)) ps rs).sum ∧
      (List.zipWith (fun p r => p * (1 - r)) ps rs).sum ≤ ps.sum := by
  intro ps
  induction ps with
  | nil => intro rs _ _; simp
  | cons p ps ih =>
    intro rs hp hr
    cases rs with
    | nil =>
      simp only [List.zipWith_nil_right, List.sum_nil]
      exact ⟨le_refl 0, List.sum_nonneg hp⟩
    | cons r rs =>
      have hp0 : 0 ≤ p := hp p (List.mem_cons_self p ps)
      have hr0 := hr r (List.mem_cons_self r rs)
      have hterm0 : 0 ≤ p * (1 - r) := mul_nonneg hp0 (by linarith [hr0.2])
      have hterm1 : p * (1 - r) ≤ p := by nlinarith [hr0.1]
      have ihh := ih rs (fun x hx => hp x (List.mem_cons_of_mem p hx))
        (fun x hx => hr x (List.mem_cons_of_mem r hx))
      simp only [List.zipWith_cons_cons, List.sum_cons]
      constructor
      · linarith [ihh.1]
      · linarith [ihh.2]

/-- Every normalized death weight is nonnegative. -/
lemma mortality_p_nonneg : ∀ p ∈ mortality_p, 0 ≤ p := by decide

/-- The normalized death weights sum to `1`. -/
lemma mortality_p_sum : mortality_p.sum = 1 := by decide

/-- C7: `mortality_weights` returns the 47-row vector `dx / Σ dx`
(`dx = lx·qx`) summing to `1`; and for every `fail_idx` list with entries
in `[0, horizon]` (`horizon` = the length of `ages_model`),
`death_weighted_success` returns
`p99 = mean(fail_idx ≥ horizon) = mean(fail_idx = horizon)` together with
a `p_dw` lying in `[0, 1]`. -/
theorem C7_mortality :
    mortality_weights.2 = mortality_dx.map (· / mortality_dx.sum) ∧
    mortality_weights.2.sum = 1 ∧
    mortality_weights.2.length = 47 ∧
    (∀ (fi : List ℕ) (ages_model : List ℤ), (∀ x ∈ fi, x ≤ ages_model.length) →
      (death_weighted_success fi ages_model).2 =
        ((fi.countP fun x => decide (ages_model.length ≤ x)) : ℚ) / (fi.length : ℚ) ∧
      (death_weighted_success fi ages_model).2 =
        ((fi.countP fun x => decide (x = ages_model.length)) : ℚ) / (fi.length : ℚ) ∧
      0 ≤ (death_weighted_success fi ages_model).1 ∧
      (death_weighted_success fi ages_model).1 ≤ 1) := by
  refine ⟨by decide, by decide, by decide, ?_⟩
  intro fi ages_model h
  have hcount := countP_ge_eq_countP_eq fi ages_model.length h
  have hbounds :
      ∀ r ∈ mortality_ages.map (fun a => ruin_by_t fi (t_of_age ages_model a)),
        0 ≤ r ∧ r ≤ 1 := by
    intro r hr
    obtain ⟨a, _, rfl⟩ := List.mem_map.mp hr
    exact ruin_by_t_bounds fi _
  have hws := weighted_sum_bounds mortality_p
    (mortality_ages.map fun a => ruin_by_t fi (t_of_age ages_model a))
    mortality_p_nonneg hbounds
  refine ⟨rfl, ?_, ?_, ?_⟩
  · simp only [death_weighted_success, hcount]
  · exact hws.1
  · calc (death_weighted_success fi ages_model).1 ≤ mortality_p.sum := hws.2
      _ = 1 := mortality_p_sum

/-- C7 witness: the quantified part of the theorem applied to the concrete
failure list `[0, 2, 1]` over the two-year age model `[60, 61]`. -/
theorem C7_mortality_witness :
    (∀ x ∈ [0, 2, 1], x ≤ ([60, 61] : List ℤ).length) ∧
    ((death_weighted_success [0, 2, 1] [60, 61]).2 =
      (([0, 2, 1].countP fun x => decide (([60, 61] : List ℤ).length ≤ x)) : ℚ) /
        (([0, 2, 1] : List ℕ).length : ℚ) ∧
    (death_weighted_success [0, 2, 1] [60, 61]).2 =
      (([0, 2, 1].countP fun x => decide (x = ([60, 61] : List ℤ).length)) : ℚ) /
        (([0, 2, 1] : List ℕ).length : ℚ) ∧
    0 ≤ (death_weighted_success [0, 2, 1] [60, 61]).1 ∧
    (death_weighted_success [0, 2, 1] [60, 61]).1 ≤ 1) :=
  ⟨by decide, C7_mortality.2.2.2 [0, 2, 1] [60, 61] (by decide)⟩

/-! ## Shared small lemmas about the withdraw primitive -/

/-- Withdrawing a zero amount changes nothing. -/
lemma take_from_zero (arr : ℚ) : take_from arr 0 = (arr, 0) := by
  simp [take_from, min_eq_left (le_max_right arr 0)]

/-- `min 0 (max 0 x) = 0`. -/
lemma zero_min_max (x : ℚ) : min 0 (max 0 x) = 0 := min_eq_left (le_max_left 0 x)

/-! ## C2 — what actually happens on failed paths -/

/-- On a failed path the whole spend/funding block is the identity:
the feasibility check cannot re-fail, `spend_assets` is `0`, and every
funding leg takes `0`. -/
lemma spend_phase_failed (cfg : Cfg) (t : ℕ) (dd mf ad fna : ℚ) (s : PathState)
    (h : s.failed = true) :
    spend_phase cfg t dd mf ad fna s = s := by
  simp [spend_phase, fund_lb2, fund_rm2, fund_risky, fund_rm1, fund_lb1, fund_base,
    fund_cash, h, take_from_zero, zero_min_max]
  rw [← h]

/-- On a failed path the reserve refill moves nothing. -/
lemma refill_phase_failed (cfg : Cfg) (n t : ℕ) (dd : ℚ) (s : PathState)
    (h : s.failed = true) :
    refill_phase cfg n t dd s = s := by
  simp [refill_phase, h]
  rw [← h]

/-- On a failed path the RM repayment moves nothing. -/
lemma rm_repay_phase_failed (cfg : Cfg) (dd : ℚ) (s : PathState)
    (h : s.failed = true) :
    rm_repay_phase cfg dd s = s := by
  simp [rm_repay_phase, h, min_eq_left (le_max_right s.risky 0)]
  rw [← h]

/-! ## Frame lemmas: fields each phase leaves untouched -/

@[simp] lemma grow_phase_loan_bal (cfg : Cfg) (R : ℚ) (s : PathState) :
    (grow_phase cfg R s).loan_bal = s.loan_bal := rfl

@[simp] lemma grow_phase_rm_limit (cfg : Cfg) (R : ℚ) (s : PathState) :
    (grow_phase cfg R s).rm_limit = s.rm_limit := rfl

@[simp] lemma grow_phase_rm_bal (cfg : Cfg) (R : ℚ) (s : PathState) :
    (grow_phase cfg R s).rm_bal = s.rm_bal := rfl

@[simp] lemma grow_phase_failed (cfg : Cfg) (R : ℚ) (s : PathState) :
    (grow_phase cfg R s).failed = s.failed := rfl

@[simp] lemma grow_phase_fail_idx (cfg : Cfg) (R : ℚ) (s : PathState) :
    (grow_phase cfg R s).fail_idx = s.fail_idx := rfl

@[simp] lemma grow_phase_rm_ever (cfg : Cfg) (R : ℚ) (s : PathState) :
    (grow_phase cfg R s).rm_ever_used = s.rm_ever_used := rfl

@[simp] lemma dd_phase_cash (s : PathState) : (dd_phase s).cash = s.cash := rfl

@[simp] lemma dd_phase_base (s : PathState) : (dd_phase s).base_treas = s.base_treas := rfl

@[simp] lemma dd_phase_risky (s : PathState) : (dd_phase s).risky = s.risky := rfl

@[simp] lemma dd_phase_loan_bucket (s : PathState) :
    (dd_phase s).loan_bucket = s.loan_bucket := rfl

@[simp] lemma dd_phase_loan_bal (s : PathState) : (dd_phase s).loan_bal = s.loan_bal := rfl

@[simp] lemma dd_phase_rm_limit (s : PathState) : (dd_phase s).rm_limit = s.rm_limit := rfl

@[simp] lemma dd_phase_rm_bal (s : PathState) : (dd_phase s).rm_bal = s.rm_bal := rfl

@[simp] lemma dd_phase_failed (s : PathState) : (dd_phase s).failed = s.failed := rfl

@[simp] lemma dd_phase_fail_idx (s : PathState) : (dd_phase s).fail_idx = s.fail_idx := rfl

@[simp] lemma dd_phase_rm_ever (s : PathState) :
    (dd_phase s).rm_ever_used = s.rm_ever_used := rfl

@[simp] lemma loan_pay_phase_rm_limit (cfg : Cfg) (t : ℕ) (dd : ℚ) (s : PathState) :
    (loan_pay_phase cfg t dd s).rm_limit = s.rm_limit := by
  unfold loan_pay_phase; split <;> rfl

@[simp] lemma loan_pay_phase_rm_bal (cfg : Cfg) (t : ℕ) (dd : ℚ) (s : PathState) :
    (loan_pay_phase cfg t dd s).rm_bal = s.rm_bal := by
  unfold loan_pay_phase; split <;> rfl

@[simp] lemma loan_pay_phase_rm_ever (cfg : Cfg) (t : ℕ) (dd : ℚ) (s : PathState) :
    (loan_pay_phase cfg t dd s).rm_ever_used = s.rm_ever_used := by
  unfold loan_pay_phase; split <;> rfl

@[simp] lemma rm_open_phase_rm_ever (cfg : Cfg) (t : ℕ) (dd : ℚ) (s : PathState) :
    (rm_open_phase cfg t dd s).rm_ever_used = s.rm_ever_used := by
  unfold rm_open_phase; split <;> [skip; rfl] <;> split <;> [skip; rfl] <;> split <;> rfl

@[simp] lemma rm_accrual_phase_cash (cfg : Cfg) (t : ℕ) (s : PathState) :
    (rm_accrual_phase cfg t s).cash = s.cash := by
  unfold rm_accrual_phase; split <;> rfl

@[simp] lemma rm_accrual_phase_base (cfg : Cfg) (t : ℕ) (s : PathState) :
    (rm_accrual_phase cfg t s).base_treas = s.base_treas := by
  unfold rm_accrual_phase; split <;> rfl

@[simp] lemma rm_accrual_phase_risky (cfg : Cfg) (t : ℕ) (s : PathState) :
    (rm_accrual_phase cfg t s).risky = s.risky := by
  unfold rm_accrual_phase; split <;> rfl

@[simp] lemma rm_accrual_phase_loan_bucket (cfg : Cfg) (t : ℕ) (s : PathState) :
    (rm_accrual_phase cfg t s).loan_bucket = s.loan_bucket := by
  unfold rm_accrual_phase; split <;> rfl

@[simp] lemma rm_accrual_phase_loan_bal (cfg : Cfg) (t : ℕ) (s : PathState) :
    (rm_accrual_phase cfg t s).loan_bal = s.loan_bal := by
  unfold rm_accrual_phase; split <;> rfl

@[simp] lemma rm_accrual_phase_failed (cfg : Cfg) (t : ℕ) (s : PathState) :
    (rm_accrual_phase cfg t s).failed = s.failed := by
  unfold rm_accrual_phase; split <;> rfl

@[simp] lemma rm_accrual_phase_fail_idx (cfg : Cfg) (t : ℕ) (s : PathState) :
    (rm_accrual_phase cfg t s).fail_idx = s.fail_idx := by
  unfold rm_accrual_phase; split <;> rfl

@[simp] lemma rm_accrual_phase_rm_ever (cfg : Cfg) (t : ℕ) (s : PathState) :
    (rm_accrual_phase cfg t s).rm_ever_used = s.rm_ever_used := by
  unfold rm_accrual_phase; split <;> rfl

@[simp] lemma income_phase_loan_bucket (cfg : Cfg) (n t : ℕ) (dd : ℚ) (s : PathState) :
    (income_phase cfg n t dd s).1.loan_bucket = s.loan_bucket := by
  simp only [income_phase]; split_ifs <;> rfl

@[simp] lemma income_phase_loan_bal (cfg : Cfg) (n t : ℕ) (dd : ℚ) (s : PathState) :
    (income_phase cfg n t dd s).1.loan_bal = s.loan_bal := by
  simp only [income_phase]; split_ifs <;> rfl

@[simp] lemma income_phase_rm_limit (cfg : Cfg) (n t : ℕ) (dd : ℚ) (s : PathState) :
    (income_phase cfg n t dd s).1.rm_limit = s.rm_limit := by
  simp only [income_phase]; split_ifs <;> rfl

@[simp] lemma income_phase_rm_bal (cfg : Cfg) (n t : ℕ) (dd : ℚ) (s : PathState) :
    (income_phase cfg n t dd s).1.rm_bal = s.rm_bal := by
  simp only [income_phase]; split_ifs <;> rfl

@[simp] lemma income_phase_failed (cfg : Cfg) (n t : ℕ) (dd : ℚ) (s : PathState) :
    (income_phase cfg n t dd s).1.failed = s.failed := by
  simp only [income_phase]; split_ifs <;> rfl

@[simp] lemma income_phase_fail_idx (cfg : Cfg) (n t : ℕ) (dd : ℚ) (s : PathState) :
    (income_phase cfg n t dd s).1.fail_idx = s.fail_idx := by
  simp only [income_phase]; split_ifs <;> rfl

@[simp] lemma income_phase_rm_ever (cfg : Cfg) (n t : ℕ) (dd : ℚ) (s : PathState) :
    (income_phase cfg n t dd s).1.rm_ever_used = s.rm_ever_used := by
  simp only [income_phase]; split_ifs <;> rfl

@[simp] lemma spend_phase_rm_limit (cfg : Cfg) (t : ℕ) (dd mf ad fna : ℚ) (s : PathState) :
    (spend_phase cfg t dd mf ad fna s).rm_limit = s.rm_limit := rfl

@[simp] lemma spend_phase_loan_bal (cfg : Cfg) (t : ℕ) (dd mf ad fna : ℚ) (s : PathState) :
    (spend_phase cfg t dd mf ad fna s).loan_bal = s.loan_bal := rfl

@[simp] lemma spend_phase_rm_ever (cfg : Cfg) (t : ℕ) (dd mf ad fna : ℚ) (s : PathState) :
    (spend_phase cfg t dd mf ad fna s).rm_ever_used = s.rm_ever_used := rfl

@[simp] lemma refill_phase_loan_bucket (cfg : Cfg) (n t : ℕ) (dd : ℚ) (s : PathState) :
    (refill_phase cfg n t dd s).loan_bucket = s.loan_bucket := rfl

@[simp] lemma refill_phase_loan_bal (cfg : Cfg) (n t : ℕ) (dd : ℚ) (s : PathState) :
    (refill_phase cfg n t dd s).loan_bal = s.loan_bal := rfl

@[simp] lemma refill_phase_rm_limit (cfg : Cfg) (n t : ℕ) (dd : ℚ) (s : PathState) :
    (refill_phase cfg n t dd s).rm_limit = s.rm_limit := rfl

@[simp] lemma refill_phase_rm_bal (cfg : Cfg) (n t : ℕ) (dd : ℚ) (s : PathState) :
    (refill_phase cfg n t dd s).rm_bal = s.rm_bal := rfl

@[simp] lemma refill_phase_failed_flag (cfg : Cfg) (n t : ℕ) (dd : ℚ) (s : PathState) :
    (refill_phase cfg n t dd s).failed = s.failed := rfl

@[simp] lemma refill_phase_fail_idx (cfg : Cfg) (n t : ℕ) (dd : ℚ) (s : PathState) :
    (refill_phase cfg n t dd s).fail_idx = s.fail_idx := rfl

@[simp] lemma refill_phase_rm_ever (cfg : Cfg) (n t : ℕ) (dd : ℚ) (s : PathState) :
    (refill_phase cfg n t dd s).rm_ever_used = s.rm_ever_used := rfl

@[simp] lemma rm_repay_phase_cash (cfg : Cfg) (dd : ℚ) (s : PathState) :
    (rm_repay_phase cfg dd s).cash = s.cash := rfl

@[simp] lemma rm_repay_phase_base (cfg : Cfg) (dd : ℚ) (s : PathState) :
    (rm_repay_phase cfg dd s).base_treas = s.base_treas := rfl

@[simp] lemma rm_repay_phase_loan_bucket (cfg : Cfg) (dd : ℚ) (s : PathState) :
    (rm_repay_phase cfg dd s).loan_bucket = s.loan_bucket := rfl

@[simp] lemma rm_repay_phase_loan_bal (cfg : Cfg) (dd : ℚ) (s : PathState) :
    (rm_repay_phase cfg dd s).loan_bal = s.loan_bal := rfl

@[simp] lemma rm_repay_phase_rm_limit (cfg : Cfg) (dd : ℚ) (s : PathState) :
    (rm_repay_phase cfg dd s).rm_limit = s.rm_limit := rfl

@[simp] lemma rm_repay_phase_failed_flag (cfg : Cfg) (dd : ℚ) (s : PathState) :
    (rm_repay_phase cfg dd s).failed = s.failed := rfl

@[simp] lemma rm_repay_phase_fail_idx (cfg : Cfg) (dd : ℚ) (s : PathState) :
    (rm_repay_phase cfg dd s).fail_idx = s.fail_idx := rfl

@[simp] lemma rm_repay_phase_rm_ever (cfg : Cfg) (dd : ℚ) (s : PathState) :
    (rm_repay_phase cfg dd s).rm_ever_used = s.rm_ever_used := rfl

@[simp] lemma latch_phase_cash (s : PathState) : (latch_phase s).cash = s.cash := rfl

@[simp] lemma latch_phase_base (s : PathState) :
    (latch_phase s).base_treas = s.base_treas := rfl

@[simp] lemma latch_phase_risky (s : PathState) : (latch_phase s).risky = s.risky := rfl

@[simp] lemma latch_phase_loan_bucket (s : PathState) :
    (latch_phase s).loan_bucket = s.loan_bucket := rfl

@[simp] lemma latch_phase_loan_bal (s : PathState) :
    (latch_phase s).loan_bal = s.loan_bal := rfl

@[simp] lemma latch_phase_rm_limit (s : PathState) :
    (latch_phase s).rm_limit = s.rm_limit := rfl

@[simp] lemma latch_phase_rm_bal (s : PathState) : (latch_phase s).rm_bal = s.rm_bal := rfl

@[simp] lemma latch_phase_failed (s : PathState) : (latch_phase s).failed = s.failed := rfl

@[simp] lemma latch_phase_fail_idx (s : PathState) :
    (latch_phase s).fail_idx = s.fail_idx := rfl

/-- Configuration for the C2 counterexample: a loan of 100 at 100% for one
year (`pay = 200` charged every pre-RM year), a huge floor so the single
path fails in year 0 with cash left over, and the RM opening far away. -/
def cfgC2x : Cfg :=
  { cfg0 with
    start_portfolio := 1000
    reserve_years := 1
    reserve_cash_fraction := 1
    E := 500
    floor_annual_real := 10000
    loan_amount := 100
    loan_real_rate := 1
    loan_term_years := 1
    rm_open_age := 70 }

/-- C2 counterexample: the path fails in year 0 (with 300 of cash left),
yet the pre-RM loan payment of year 1 removes money from the failed path's
cash — contradicting the claim that no step removes money from a failed
path's buckets. -/
theorem C2_counterexample :
    (state_after cfgC2x 2 [0, 0] 1).failed = true ∧
    (state_after cfgC2x 2 [0, 0] 1).fail_idx = 0 ∧
    (state_after cfgC2x 2 [0, 0] 2).cash < (state_after cfgC2x 2 [0, 0] 1).cash := by
  decide

/-- C2 amended: on a failed path the spend/funding block is the identity
(`spend_assets = 0`, every funding leg takes `0`, the failure latch and
index are unchanged), and the reserve refill and RM repayment move no
funds; the pre-RM loan payment and the RM-open payoff, however, are NOT
masked by `failed` and can still draw from a failed path's buckets (see
the counterexample). -/
theorem C2_amended (cfg : Cfg) (n t : ℕ) (dd mf ad fna : ℚ) (s : PathState)
    (h : s.failed = true) :
    spend_phase cfg t dd mf ad fna s = s ∧
    refill_phase cfg n t dd s = s ∧
    rm_repay_phase cfg dd s = s :=
  ⟨spend_phase_failed cfg t dd mf ad fna s h,
   refill_phase_failed cfg n t dd s h,
   rm_repay_phase_failed cfg dd s h⟩

/-- A concrete already-failed path state with money left in every bucket. -/
def failed_state : PathState :=
  { cash := 5, base_treas := 1, risky := 2, hwm := 2, max_dd_risky := 0,
    hwm_total := 8, max_dd_total := 0, loan_bucket := 3, loan_bal := 4,
    rm_limit := 6, rm_bal := 1, rm_ever_used := true, failed := true, fail_idx := 0 }

/-- C2 amended witness: the amended theorem at a concrete failed state. -/
theorem C2_amended_witness :
    failed_state.failed = true ∧
    spend_phase cfg0 1 0 7 4 3 failed_state = failed_state ∧
    refill_phase cfg0 2 1 0 failed_state = failed_state ∧
    rm_repay_phase cfg0 0 failed_state = failed_state :=
  ⟨rfl, (C2_amended cfg0 2 1 0 7 4 3 failed_state rfl).1,
    (C2_amended cfg0 2 1 0 7 4 3 failed_state rfl).2.1,
    (C2_amended cfg0 2 1 0 7 4 3 failed_state rfl).2.2⟩

/-! ## C8 — no-loan idempotence -/

/-- With no loan, the pre-RM loan-payment phase is skipped entirely. -/
lemma no_loan_loan_pay (cfg : Cfg) (h : cfg.loan_amount = 0) (t : ℕ) (dd : ℚ)
    (s : PathState) : loan_pay_phase cfg t dd s = s := by
  simp [loan_pay_phase, h]

/-- With no loan, the growth phase leaves the loan bucket untouched. -/
lemma no_loan_grow (cfg : Cfg) (h : cfg.loan_amount = 0) (R : ℚ) (s : PathState) :
    (grow_phase cfg R s).loan_bucket = s.loan_bucket := by
  simp [grow_phase, h]

/-- With no loan, the RM-open phase only sets the credit limit. -/
lemma no_loan_rm_open (cfg : Cfg) (h : cfg.loan_amount = 0) (t : ℕ) (dd : ℚ)
    (s : PathState) :
    (rm_open_phase cfg t dd s).loan_bucket = s.loan_bucket ∧
    (rm_open_phase cfg t dd s).loan_bal = s.loan_bal := by
  unfold rm_open_phase
  split_ifs with h1 h2 h3 <;> first | exact ⟨rfl, rfl⟩ | (exfalso; omega)

/-- A zero loan bucket stays zero through the partial-cover leg. -/
lemma fund_lb1_zero (cfg : Cfg) (dd : ℚ) (f : Bool) (sr : PathState × ℚ)
    (h : sr.1.loan_bucket = 0) :
    (fund_lb1 cfg dd f sr).1.loan_bucket = 0 ∧ (fund_lb1 cfg dd f sr).2 = sr.2 := by
  simp [fund_lb1, h]

/-- A zero loan bucket stays zero through the backfill leg. -/
lemma fund_lb2_zero (cfg : Cfg) (dd : ℚ) (f : Bool) (sr : PathState × ℚ)
    (h : sr.1.loan_bucket = 0) :
    (fund_lb2 cfg dd f sr).1.loan_bucket = 0 := by
  unfold fund_lb2
  split_ifs with hc
  · have h2 : (0 : ℚ) < sr.2 := lt_trans (by norm_num [eps]) hc.2.2
    simp [h, min_eq_right h2.le]
  · simp [h]

/-- With no loan the loan bucket stays zero through the whole funding
order. -/
lemma no_loan_spend (cfg : Cfg) (t : ℕ) (dd mf ad fna : ℚ) (s : PathState)
    (h : s.loan_bucket = 0) :
    (spend_phase cfg t dd mf ad fna s).loan_bucket = 0 := by
  unfold spend_phase
  apply fund_lb2_zero
  rw [show ∀ sr : PathState × ℚ, (fund_rm2 sr).1.loan_bucket = sr.1.loan_bucket
        from fun _ => rfl,
      show ∀ sr : PathState × ℚ, (fund_risky sr).1.loan_bucket = sr.1.loan_bucket
        from fun _ => rfl,
      show ∀ (c : Cfg) (d : ℚ) (f : Bool) (sr : PathState × ℚ),
        (fund_rm1 c d f sr).1.loan_bucket = sr.1.loan_bucket from fun _ _ _ _ => rfl]
  exact (fund_lb1_zero cfg dd _ _ (by simpa using h)).1

/-- With no loan, a whole year step keeps the loan bucket and the loan
balance at zero. -/
lemma no_loan_step (cfg : Cfg) (h : cfg.loan_amount = 0) (n t : ℕ) (R : ℚ)
    (s : PathState) (hlb : s.loan_bucket = 0) (hbal : s.loan_bal = 0) :
    (step_year cfg n t R s).loan_bucket = 0 ∧ (step_year cfg n t R s).loan_bal = 0 := by
  unfold step_year
  simp only [no_loan_loan_pay cfg h, latch_phase_loan_bucket, latch_phase_loan_bal,
    rm_repay_phase_loan_bucket, rm_repay_phase_loan_bal, refill_phase_loan_bucket,
    refill_phase_loan_bal, spend_phase_loan_bal]
  constructor
  · apply no_loan_spend
    simp only [income_phase_loan_bucket, rm_accrual_phase_loan_bucket]
    rw [(no_loan_rm_open cfg h _ _ _).1]
    simp only [dd_phase_loan_bucket]
    rw [no_loan_grow cfg h, hlb]
  · simp only [income_phase_loan_bal, rm_accrual_phase_loan_bal]
    rw [(no_loan_rm_open cfg h _ _ _).2]
    simp only [dd_phase_loan_bal, grow_phase_loan_bal]
    exact hbal

/-- With no loan, loan bucket and balance are zero at every point of the
trajectory. -/
lemma no_loan_state_after (cfg : Cfg) (h : cfg.loan_amount = 0) (n : ℕ)
    (rets : List ℚ) (t : ℕ) :
    (state_after cfg n rets t).loan_bucket = 0 ∧
    (state_after cfg n rets t).loan_bal = 0 := by
  induction t with
  | zero =>
    constructor <;> simp [state_after, init_state, h]
  | succ t ih =>
    unfold state_after
    split
    · exact no_loan_step cfg h n t _ _ ih.1 ih.2
    · exact ih

/-- C8: with `loan_amount = 0`, `loan_bucket` and `loan_bal` are
identically zero after every year of `simulate_once`'s evolution, and the
terminal `total_net_end` reduces to `cash + base_treas + risky`. -/
theorem C8_no_loan (cfg : Cfg) (h : cfg.loan_amount = 0) (n : ℕ) (rets : List ℚ) :
    (∀ t, (state_after cfg n rets t).loan_bucket = 0 ∧
      (state_after cfg n rets t).loan_bal = 0) ∧
    total_net_end (simulate_path cfg n rets) =
      (simulate_path cfg n rets).cash + (simulate_path cfg n rets).base_treas +
        (simulate_path cfg n rets).risky := by
  refine ⟨fun t => no_loan_state_after cfg h n rets t, ?_⟩
  have hz := no_loan_state_after cfg h n rets rets.length
  unfold simulate_path total_net_end
  rw [hz.1, hz.2]
  ring

/-- C8 witness: the theorem at the concrete no-loan configuration `cfg0`
over a one-year run. -/
theorem C8_no_loan_witness :
    cfg0.loan_amount = 0 ∧
    ((state_after cfg0 1 [0] 1).loan_bucket = 0 ∧
      (state_after cfg0 1 [0] 1).loan_bal = 0) ∧
    total_net_end (simulate_path cfg0 1 [0]) =
      (simulate_path cfg0 1 [0]).cash + (simulate_path cfg0 1 [0]).base_treas +
        (simulate_path cfg0 1 [0]).risky :=
  ⟨rfl, (C8_no_loan cfg0 rfl 1 [0]).1 1, (C8_no_loan cfg0 rfl 1 [0]).2⟩

/-! ## C1 — (non-)monotonicity of failure in spending -/

/-- Configuration for the C1 counterexample at `E = 100`: one path, a one
year horizon, a one-year all-cash reserve target (so a larger `E` seeds
more of the portfolio into cash), and a floor of 150 payable only by the
larger-`E` allocation after a −99% crash. -/
def cfgC1a : Cfg :=
  { cfg0 with
    start_portfolio := 300
    reserve_years := 1
    reserve_cash_fraction := 1
    E := 100
    floor_annual_real := 150 }

/-- The same configuration at `E = 200`. -/
def cfgC1b : Cfg := { cfgC1a with E := 200 }

/-- C1 counterexample: with the returns matrix fixed at `[[−0.99]]` and
`E1 = 100 ≤ E2 = 200`, the path at `E1` fails in year 0 while the path at
`E2` survives the horizon: `fail_idx` at `E1` is strictly SMALLER than at
`E2`, and both success metrics are strictly INCREASING in `E` here.  The
larger `E` seeds a larger cash reserve, which survives the crash of the
risky bucket and covers the floor. -/
theorem C1_counterexample :
    cfgC1a.E ≤ cfgC1b.E ∧
    (simulate_path cfgC1a 1 [-99/100]).fail_idx <
      (simulate_path cfgC1b 1 [-99/100]).fail_idx ∧
    (simulate_once cfgC1a [[-99/100]]).p_success_to_age_99 <
      (simulate_once cfgC1b [[-99/100]]).p_success_to_age_99 ∧
    (simulate_once cfgC1a [[-99/100]]).p_success_death_weighted <
      (simulate_once cfgC1b [[-99/100]]).p_success_death_weighted := by
  decide

/-- The planned withdrawal is never negative. -/
lemma build_withdrawals_nonneg (cfg : Cfg) (t : ℕ) : 0 ≤ build_withdrawals cfg t := by
  unfold build_withdrawals
  split_ifs <;> simp

/-- The guardrail cut lies in `[0,1]` when `cut1` and `cut2` do. -/
lemma compute_cuts_bounds (dd d1 d2 c1 c2 : ℚ) (h1 : 0 ≤ c1) (h1' : c1 ≤ 1)
    (h2 : 0 ≤ c2) (h2' : c2 ≤ 1) :
    0 ≤ compute_cuts dd d1 d2 c1 c2 ∧ compute_cuts dd d1 d2 c1 c2 ≤ 1 := by
  unfold compute_cuts
  split_ifs <;> constructor <;> first | assumption | norm_num

/-- Monotonicity of `w − min(p·w, w)·c + 0` in `w` for `w ≥ 0`, `c ∈ [0,1]`:
the per-year desired spend is `w·(1 − min(p,1)·c)`. -/
lemma desired_core_mono (p c w1 w2 : ℚ) (hw1 : 0 ≤ w1) (hw : w1 ≤ w2)
    (hc : 0 ≤ c) (hc' : c ≤ 1) :
    (w1 - min (p * w1) w1) + min (p * w1) w1 * (1 - c) ≤
      (w2 - min (p * w2) w2) + min (p * w2) w2 * (1 - c) := by
  have hw2 : 0 ≤ w2 := le_trans hw1 hw
  have h1 : min (p * w1) w1 = min p 1 * w1 := by
    rw [min_mul_of_nonneg p 1 hw1, one_mul]
  have h2 : min (p * w2) w2 = min p 1 * w2 := by
    rw [min_mul_of_nonneg p 1 hw2, one_mul]
  rw [h1, h2]
  have hm1 : min p 1 ≤ 1 := min_le_right p 1
  have hmc : min p 1 * c ≤ 1 := by
    rcases le_or_lt (min p 1) 0 with h | h
    · nlinarith
    · nlinarith
  nlinarith

/-- C1 amended: what does hold is monotonicity of the *planned schedule*
and of the *single-year desired spend* in `E` (for a nonnegative partial
year fraction and cuts in `[0,1]`); the cross-year claim — `fail_idx`
non-increasing and the success probabilities non-increasing in `E` — is
false (see the counterexample), because the reserve targets scale with
`E` and reallocate the same portfolio between buckets of different risk. -/
theorem C1_amended (cfg : Cfg) (E1 E2 : ℚ) (hE : E1 ≤ E2)
    (hpy : 0 ≤ cfg.part_year_fraction)
    (hc1 : 0 ≤ cfg.cut1) (hc1' : cfg.cut1 ≤ 1)
    (hc2 : 0 ≤ cfg.cut2) (hc2' : cfg.cut2 ≤ 1) (t : ℕ) (dd : ℚ) :
    build_withdrawals { cfg with E := E1 } t ≤ build_withdrawals { cfg with E := E2 } t ∧
    desired_spend { cfg with E := E1 } t dd ≤ desired_spend { cfg with E := E2 } t dd := by
  have hw : build_withdrawals { cfg with E := E1 } t ≤
      build_withdrawals { cfg with E := E2 } t := by
    simp only [build_withdrawals]
    split_ifs <;>
      exact max_le_max le_rfl (by nlinarith [mul_le_mul_of_nonneg_right hE hpy])
  refine ⟨hw, ?_⟩
  unfold desired_spend
  have hcut := compute_cuts_bounds dd cfg.dd1 cfg.dd2 cfg.cut1 cfg.cut2 hc1 hc1' hc2 hc2'
  exact desired_core_mono _ _ _ _ (build_withdrawals_nonneg _ t) hw hcut.1 hcut.2

/-- C1 amended witness: the amended theorem at `cfg0` with `E1 = 1 ≤ 2 = E2`
in year 0 at zero drawdown. -/
theorem C1_amended_witness :
    ((1 : ℚ) ≤ 2 ∧ 0 ≤ cfg0.part_year_fraction ∧ 0 ≤ cfg0.cut1 ∧ cfg0.cut1 ≤ 1 ∧
      0 ≤ cfg0.cut2 ∧ cfg0.cut2 ≤ 1) ∧
    build_withdrawals { cfg0 with E := 1 } 0 ≤ build_withdrawals { cfg0 with E := 2 } 0 ∧
    desired_spend { cfg0 with E := 1 } 0 0 ≤ desired_spend { cfg0 with E := 2 } 0 0 :=
  ⟨⟨by norm_num, by decide, by decide, by decide, by decide, by decide⟩,
   C1_amended cfg0 1 2 (by norm_num) (by decide) (by decide) (by decide)
     (by decide) (by decide) 0 0⟩

/-! ## C4/C5 — optimizer invariants -/

/-- Invariants of the bracket-expansion loop: the carried metrics always
equal `sim` of the carried points, the returned `lo` passes the target,
`lo ≤ hi`, `4 ≤ hi` persists, and `lo < hi` holds at exit whenever it held
at entry or the entry `hi` was itself a passing, un-capped point. -/
lemma bracket_spec (sim : ℤ → Metrics) (objv : Metrics → ℚ) (t : ℚ) :
    ∀ (fuel : ℕ) (lo hi : ℤ) (mlo mhi : Metrics), mlo = sim lo → mhi = sim hi →
      t ≤ objv mlo → lo ≤ hi → 4 ≤ hi → (600000 - hi).toNat < fuel →
      (bracket_expand sim objv t fuel lo mlo hi mhi).2.1 =
        sim (bracket_expand sim objv t fuel lo mlo hi mhi).1 ∧
      (bracket_expand sim objv t fuel lo mlo hi mhi).2.2.2 =
        sim (bracket_expand sim objv t fuel lo mlo hi mhi).2.2.1 ∧
      t ≤ objv (bracket_expand sim objv t fuel lo mlo hi mhi).2.1 ∧
      (bracket_expand sim objv t fuel lo mlo hi mhi).1 ≤
        (bracket_expand sim objv t fuel lo mlo hi mhi).2.2.1 ∧
      4 ≤ (bracket_expand sim objv t fuel lo mlo hi mhi).2.2.1 ∧
      ((lo < hi ∨ (t ≤ objv mhi ∧ hi < 600000)) →
        (bracket_expand sim objv t fuel lo mlo hi mhi).1 <
          (bracket_expand sim objv t fuel lo mlo hi mhi).2.2.1) := by
  intro fuel
  induction fuel with
  | zero => intro lo hi mlo mhi _ _ _ _ _ hf; omega
  | succ fuel ih =>
    intro lo hi mlo mhi hml hmh hpass hle h4 hf
    simp only [bracket_expand]
    split_ifs with hg hlt
    · have htd : Int.tdiv (5 * hi) 4 = (5 * hi) / 4 :=
        Int.tdiv_eq_ediv (by omega) (by omega)
      have h4' : 4 ≤ Int.tdiv (5 * hi) 4 := by omega
      have hfuel' : (600000 - Int.tdiv (5 * hi) 4).toNat < fuel := by
        have := hg.2
        omega
      have := ih hi (Int.tdiv (5 * hi) 4) mhi (sim (Int.tdiv (5 * hi) 4)) hmh rfl
        hg.1 (le_of_lt hlt) h4' hfuel'
      exact ⟨this.1, this.2.1, this.2.2.1, this.2.2.2.1, this.2.2.2.2.1,
        fun _ => this.2.2.2.2.2 (Or.inl hlt)⟩
    · exfalso
      have htd : Int.tdiv (5 * hi) 4 = (5 * hi) / 4 :=
        Int.tdiv_eq_ediv (by omega) (by omega)
      omega
    · refine ⟨hml, hmh, hpass, hle, h4, fun h => ?_⟩
      rcases h with h | h
      · exact h
      · exact absurd h hg

/-- Invariants of the bisection loop: the carried metrics equal `sim lo`,
`lo` always passes, `lo ≤ hi`, `lo` stays strictly below the initial upper
bound `H`, `hi ≤ H`, and whenever `hi` has moved below `H` the point
`hi + 1` is a known failure. -/
lemma bisect_spec (sim : ℤ → Metrics) (objv : Metrics → ℚ) (t : ℚ) :
    ∀ (iters : ℕ) (lo hi H : ℤ) (mlo : Metrics), mlo = sim lo → t ≤ objv mlo →
      lo ≤ hi → hi ≤ H → lo < H → (hi = H ∨ objv (sim (hi + 1)) < t) →
      (bisect_loop sim objv t iters lo mlo hi).2.1 =
        sim (bisect_loop sim objv t iters lo mlo hi).1 ∧
      t ≤ objv (bisect_loop sim objv t iters lo mlo hi).2.1 ∧
      (bisect_loop sim objv t iters lo mlo hi).1 ≤
        (bisect_loop sim objv t iters lo mlo hi).2.2 ∧
      (bisect_loop sim objv t iters lo mlo hi).1 < H ∧
      (bisect_loop sim objv t iters lo mlo hi).2.2 ≤ H ∧
      ((bisect_loop sim objv t iters lo mlo hi).2.2 = H ∨
        objv (sim ((bisect_loop sim objv t iters lo mlo hi).2.2 + 1)) < t) := by
  intro iters
  induction iters with
  | zero =>
    intro lo hi H mlo hml hpass hle hH hlH hmode
    exact ⟨hml, hpass, hle, hlH, hH, hmode⟩
  | succ iters ih =>
    intro lo hi H mlo hml hpass hle hH hlH hmode
    simp only [bisect_loop]
    split_ifs with hp
    · exact ih ((lo + hi) / 2) hi H (sim ((lo + hi) / 2)) rfl hp (by omega) hH
        (by omega) hmode
    · have hne : lo ≠ (lo + hi) / 2 := by
        intro he
        rw [hml] at hpass
        rw [← he] at hp
        exact hp hpass
      have hmid : (lo + hi) / 2 - 1 + 1 = (lo + hi) / 2 := by omega
      refine ih lo ((lo + hi) / 2 - 1) H mlo hml hpass (by omega) (by omega) hlH
        (Or.inr ?_)
      rw [hmid]
      exact not_le.mp hp

/-- C4 amended: in the degenerate case `find_max_E` returns
`(e_lo, metrics(e_lo))` unchanged; in the non-degenerate case (for a
well-formed bracket `e_lo ≤ e_hi`, `4 ≤ e_hi < 600000`) the returned `E`
carries `metrics = sim E` with `objective ≥ target`, and
`objective(E+1) < target` is guaranteed whenever the final search interval
has closed (`lo = hi`).  When the iteration budget leaves `lo < hi` — in
particular always after the bracket hits the 600000 cap with a passing
`hi`, since then `E` stays strictly below the final `hi` — the evaluation
at `E+1` may still pass, and `E` never equals the final `hi` in that cap
case (see the counterexample). -/
theorem C4_amended (sim : ℤ → Metrics) (objv : Metrics → ℚ) (t : ℚ) (e_lo e_hi : ℤ)
    (iters : ℕ) (hle : e_lo ≤ e_hi) (h4 : 4 ≤ e_hi) (hcap : e_hi < 600000) :
    (objv (sim e_lo) < t →
      find_max_E sim objv t e_lo e_hi iters = (e_lo, sim e_lo)) ∧
    (t ≤ objv (sim e_lo) →
      (find_max_E_full sim objv t e_lo e_hi iters).2.1 =
        sim (find_max_E_full sim objv t e_lo e_hi iters).1 ∧
      t ≤ objv (find_max_E_full sim objv t e_lo e_hi iters).2.1 ∧
      ((find_max_E_full sim objv t e_lo e_hi iters).1 =
          (find_max_E_full sim objv t e_lo e_hi iters).2.2.1 →
        objv (sim ((find_max_E_full sim objv t e_lo e_hi iters).1 + 1)) < t)) := by
  constructor
  · intro h
    simp [find_max_E, find_max_E_full, h]
  · intro h
    have hnot : ¬ objv (sim e_lo) < t := not_lt.mpr h
    have hbr := bracket_spec sim objv t 600001 e_lo e_hi (sim e_lo) (sim e_hi)
      rfl rfl h hle h4 (by omega)
    have hstrict : (bracket_expand sim objv t 600001 e_lo (sim e_lo) e_hi (sim e_hi)).1 <
        (bracket_expand sim objv t 600001 e_lo (sim e_lo) e_hi (sim e_hi)).2.2.1 := by
      apply hbr.2.2.2.2.2
      rcases lt_or_eq_of_le hle with hlt | heq
      · exact Or.inl hlt
      · exact Or.inr ⟨by rw [← heq]; exact h, hcap⟩
    have hbi := bisect_spec sim objv t iters
      (bracket_expand sim objv t 600001 e_lo (sim e_lo) e_hi (sim e_hi)).1
      (bracket_expand sim objv t 600001 e_lo (sim e_lo) e_hi (sim e_hi)).2.2.1
      (bracket_expand sim objv t 600001 e_lo (sim e_lo) e_hi (sim e_hi)).2.2.1
      (bracket_expand sim objv t 600001 e_lo (sim e_lo) e_hi (sim e_hi)).2.1
      hbr.1 hbr.2.2.1 hbr.2.2.2.1 le_rfl hstrict (Or.inl rfl)
    simp only [find_max_E_full, if_neg hnot]
    refine ⟨hbi.1, hbi.2.1, fun heq => ?_⟩
    have hlt := hbi.2.2.2.1
    have hcase := hbi.2.2.2.2.2
    rcases hcase with hc | hc
    · exfalso
      rw [← heq] at hc
      exact absurd hc (ne_of_lt hlt)
    · rw [heq]
      exact hc

/-- Optimizer scenario with a constant objective: SS income of 10⁹
covers any spending level, so every evaluation yields
`p_dw = p99 = 1` and the objective passes everywhere. -/
def cfgOpt : Cfg := { cfg0 with ss_annual_real := 1000000000, ss_start_age := 0 }

set_option maxHeartbeats 1000000 in
/-- C4 counterexample: with the real kernel as evaluator and the objective
constantly `1 ≥ 1/2`, the call is non-degenerate, the bracket expands past
the 600000 cap, and `find_max_E` returns `E = 637815` while a fresh
evaluation at `E + 1` still passes the target AND `E` differs from the
final `hi = 671385`: both disjuncts of the claim's conclusion fail. -/
theorem C4_counterexample :
    (1 : ℚ) / 2 ≤ objective_p .death_weighted (1/2) (kernel_sim cfgOpt [[0]] 40000) ∧
    (1 : ℚ) / 2 ≤ objective_p .death_weighted (1/2) (kernel_sim cfgOpt [[0]]
      ((find_max_E_full (kernel_sim cfgOpt [[0]]) (objective_p .death_weighted (1/2))
        (1/2) 40000 220000 2).1 + 1)) ∧
    (find_max_E_full (kernel_sim cfgOpt [[0]]) (objective_p .death_weighted (1/2))
      (1/2) 40000 220000 2).1 ≠
      (find_max_E_full (kernel_sim cfgOpt [[0]]) (objective_p .death_weighted (1/2))
        (1/2) 40000 220000 2).2.2.1 := by
  decide

set_option maxHeartbeats 1000000 in
/-- C4 amended witness: the amended theorem at the concrete constant-pass
kernel scenario, non-degenerate branch. -/
theorem C4_amended_witness :
    ((40000 : ℤ) ≤ 220000 ∧ (4 : ℤ) ≤ 220000 ∧ (220000 : ℤ) < 600000 ∧
      (1 : ℚ) / 2 ≤ objective_p .death_weighted (1/2) (kernel_sim cfgOpt [[0]] 40000)) ∧
    ((find_max_E_full (kernel_sim cfgOpt [[0]]) (objective_p .death_weighted (1/2))
        (1/2) 40000 220000 2).2.1 =
      kernel_sim cfgOpt [[0]]
        (find_max_E_full (kernel_sim cfgOpt [[0]]) (objective_p .death_weighted (1/2))
          (1/2) 40000 220000 2).1 ∧
    (1 : ℚ) / 2 ≤ objective_p .death_weighted (1/2)
      (find_max_E_full (kernel_sim cfgOpt [[0]]) (objective_p .death_weighted (1/2))
        (1/2) 40000 220000 2).2.1 ∧
    ((find_max_E_full (kernel_sim cfgOpt [[0]]) (objective_p .death_weighted (1/2))
        (1/2) 40000 220000 2).1 =
      (find_max_E_full (kernel_sim cfgOpt [[0]]) (objective_p .death_weighted (1/2))
        (1/2) 40000 220000 2).2.2.1 →
      objective_p .death_weighted (1/2) (kernel_sim cfgOpt [[0]]
        ((find_max_E_full (kernel_sim cfgOpt [[0]]) (objective_p .death_weighted (1/2))
          (1/2) 40000 220000 2).1 + 1)) < 1 / 2)) :=
  ⟨⟨by decide, by decide, by decide, by decide⟩,
   (C4_amended (kernel_sim cfgOpt [[0]]) (objective_p .death_weighted (1/2)) (1/2)
     40000 220000 2 (by decide) (by decide) (by decide)).2 (by decide)⟩

set_option maxHeartbeats 1000000 in
/-- C5 counterexample: in the same cap-terminated run the bracket's final
`hi = 671385` was evaluated by the loop's own guard and passes the target,
yet the returned `E = 637815` is strictly smaller — so the returned `E` is
NOT the largest tested passing value. -/
theorem C5_counterexample :
    (600000 : ℤ) ≤ (find_max_E_full (kernel_sim cfgOpt [[0]])
      (objective_p .death_weighted (1/2)) (1/2) 40000 220000 2).2.2.2 ∧
    (1 : ℚ) / 2 ≤ objective_p .death_weighted (1/2) (kernel_sim cfgOpt [[0]]
      (find_max_E_full (kernel_sim cfgOpt [[0]]) (objective_p .death_weighted (1/2))
        (1/2) 40000 220000 2).2.2.2) ∧
    (find_max_E_full (kernel_sim cfgOpt [[0]]) (objective_p .death_weighted (1/2))
      (1/2) 40000 220000 2).1 <
      (find_max_E_full (kernel_sim cfgOpt [[0]]) (objective_p .death_weighted (1/2))
        (1/2) 40000 220000 2).2.2.2 := by
  decide

/-- C5 amended: when the bracket loop stops at the 600000 cap with the
objective still passing at its final `hi` (and the call is non-degenerate
with a well-formed bracket), the returned `E` passes the target but is
STRICTLY below that final bracket `hi`, which was itself evaluated and
passed — the returned `E` is the largest value that became `lo`, not the
largest tested passing value. -/
theorem C5_amended (sim : ℤ → Metrics) (objv : Metrics → ℚ) (t : ℚ) (e_lo e_hi : ℤ)
    (iters : ℕ) (hle : e_lo ≤ e_hi) (h4 : 4 ≤ e_hi) (hcap : e_hi < 600000)
    (hpass : t ≤ objv (sim e_lo))
    (hcapped : 600000 ≤ (find_max_E_full sim objv t e_lo e_hi iters).2.2.2)
    (hhp : t ≤ objv (sim (find_max_E_full sim objv t e_lo e_hi iters).2.2.2)) :
    t ≤ objv (find_max_E_full sim objv t e_lo e_hi iters).2.1 ∧
    (find_max_E_full sim objv t e_lo e_hi iters).1 <
      (find_max_E_full sim objv t e_lo e_hi iters).2.2.2 := by
  have hnot : ¬ objv (sim e_lo) < t := not_lt.mpr hpass
  have hbr := bracket_spec sim objv t 600001 e_lo e_hi (sim e_lo) (sim e_hi)
    rfl rfl hpass hle h4 (by omega)
  have hstrict : (bracket_expand sim objv t 600001 e_lo (sim e_lo) e_hi (sim e_hi)).1 <
      (bracket_expand sim objv t 600001 e_lo (sim e_lo) e_hi (sim e_hi)).2.2.1 := by
    apply hbr.2.2.2.2.2
    rcases lt_or_eq_of_le hle with hlt | heq
    · exact Or.inl hlt
    · exact Or.inr ⟨by rw [← heq]; exact hpass, hcap⟩
  have hbi := bisect_spec sim objv t iters
    (bracket_expand sim objv t 600001 e_lo (sim e_lo) e_hi (sim e_hi)).1
    (bracket_expand sim objv t 600001 e_lo (sim e_lo) e_hi (sim e_hi)).2.2.1
    (bracket_expand sim objv t 600001 e_lo (sim e_lo) e_hi (sim e_hi)).2.2.1
    (bracket_expand sim objv t 600001 e_lo (sim e_lo) e_hi (sim e_hi)).2.1
    hbr.1 hbr.2.2.1 hbr.2.2.2.1 le_rfl hstrict (Or.inl rfl)
  simp only [find_max_E_full, if_neg hnot]
  exact ⟨hbi.2.1, hbi.2.2.2.1⟩

set_option maxHeartbeats 1000000 in
/-- C5 amended witness: the amended theorem at the concrete constant-pass
kernel scenario (bracket capped at `hi = 671385`, returned `E = 637815`). -/
theorem C5_amended_witness :
    ((40000 : ℤ) ≤ 220000 ∧ (4 : ℤ) ≤ 220000 ∧ (220000 : ℤ) < 600000 ∧
      (1 : ℚ) / 2 ≤ objective_p .death_weighted (1/2) (kernel_sim cfgOpt [[0]] 40000) ∧
      (600000 : ℤ) ≤ (find_max_E_full (kernel_sim cfgOpt [[0]])
        (objective_p .death_weighted (1/2)) (1/2) 40000 220000 2).2.2.2 ∧
      (1 : ℚ) / 2 ≤ objective_p .death_weighted (1/2) (kernel_sim cfgOpt [[0]]
        (find_max_E_full (kernel_sim cfgOpt [[0]]) (objective_p .death_weighted (1/2))
          (1/2) 40000 220000 2).2.2.2)) ∧
    ((1 : ℚ) / 2 ≤ objective_p .death_weighted (1/2)
      (find_max_E_full (kernel_sim cfgOpt [[0]]) (objective_p .death_weighted (1/2))
        (1/2) 40000 220000 2).2.1 ∧
    (find_max_E_full (kernel_sim cfgOpt [[0]]) (objective_p .death_weighted (1/2))
      (1/2) 40000 220000 2).1 <
      (find_max_E_full (kernel_sim cfgOpt [[0]]) (objective_p .death_weighted (1/2))
        (1/2) 40000 220000 2).2.2.2) :=
  ⟨⟨by decide, by decide, by decide, by decide, by decide, by decide⟩,
   C5_amended (kernel_sim cfgOpt [[0]]) (objective_p .death_weighted (1/2)) (1/2)
     40000 220000 2 (by decide) (by decide) (by decide) (by decide) (by decide)
     (by decide)⟩

/-! ## C3 — end-of-year fund invariants and the RM-usage latch -/

/-- The claimed end-of-year invariants on one lane's funds: nonnegative
cash, base treasuries, loan bucket, loan balance, RM balance, RM limit,
and RM balance within the credit limit. -/
def FundsOK (s : PathState) : Prop :=
  0 ≤ s.cash ∧ 0 ≤ s.base_treas ∧ 0 ≤ s.loan_bucket ∧ 0 ≤ s.loan_bal ∧
  0 ≤ s.rm_bal ∧ s.rm_bal ≤ s.rm_limit ∧ 0 ≤ s.rm_limit

/-- The configuration-validity assumptions under which the amended C3
invariants hold: nonnegative portfolio / reserve parameters, growth
factors `≥ −1` (no sign-flipping growth), partial covers and the RM repay
rate in `[0,1]`, RM balance rate at most the limit growth rate (with
`rm_bal_real_rate > rm_limit_real_growth` the accrual step pushes
`rm_bal` past `rm_limit`, see the counterexample), and a nonnegative
deterministic loan-balance schedule. -/
structure ValidCfg (cfg : Cfg) : Prop where
  sp : 0 ≤ cfg.start_portfolio
  ry : 0 ≤ cfg.reserve_years
  rcf0 : 0 ≤ cfg.reserve_cash_fraction
  rcf1 : cfg.reserve_cash_fraction ≤ 1
  safe : -1 ≤ cfg.safe_real_return
  lbr : -1 ≤ cfg.loan_bucket_real_return
  grow : -1 ≤ cfg.rm_limit_real_growth
  br : -1 ≤ cfg.rm_bal_real_rate
  brg : cfg.rm_bal_real_rate ≤ cfg.rm_limit_real_growth
  home : 0 ≤ cfg.home_value_real
  plf : 0 ≤ cfg.rm_plf_at_open
  fl : 0 ≤ cfg.floor_annual_real
  pyf : 0 ≤ cfg.part_year_fraction
  rmc0 : 0 ≤ cfg.rm_part_cover
  rmc1 : cfg.rm_part_cover ≤ 1
  lbc0 : 0 ≤ cfg.loan_bucket_part_cover
  lbc1 : cfg.loan_bucket_part_cover ≤ 1
  rr0 : 0 ≤ cfg.rm_repay_rate
  rr1 : cfg.rm_repay_rate ≤ 1
  sched : ∀ k : ℤ, 0 ≤ loan_balance_after_k (cfg.loan_amount : ℚ) cfg.loan_real_rate
    (amort_pay cfg) k

/-- `take_from` keeps a nonnegative balance nonnegative. -/
lemma take_from_arr_nonneg (arr amt : ℚ) (h : 0 ≤ arr) : 0 ≤ (take_from arr amt).1 := by
  have h1 : min amt (max arr 0) ≤ max arr 0 := min_le_right _ _
  have h2 : max arr 0 = arr := max_eq_left h
  simp only [take_from]
  linarith

/-- `take_from` keeps a nonnegative requested amount nonnegative. -/
lemma take_from_amt_nonneg (arr amt : ℚ) (h : 0 ≤ amt) : 0 ≤ (take_from arr amt).2 := by
  have h1 : min amt (max arr 0) ≤ amt := min_le_left _ _
  simp only [take_from]
  linarith

/-- Growth preserves the fund invariants. -/
lemma grow_phase_funds (cfg : Cfg) (hv : ValidCfg cfg) (R : ℚ) (s : PathState)
    (h : FundsOK s) : FundsOK (grow_phase cfg R s) := by
  obtain ⟨h1, h2, h3, h4, h5, h6, h7⟩ := h
  refine ⟨?_, ?_, ?_, h4, h5, h6, h7⟩
  · exact mul_nonneg h1 (by linarith [hv.safe])
  · exact mul_nonneg h2 (by linarith [hv.safe])
  · simp only [grow_phase]
    split_ifs
    · exact mul_nonneg h3 (by linarith [hv.lbr])
    · exact h3

/-- Drawdown bookkeeping preserves the fund invariants. -/
lemma dd_phase_funds (s : PathState) (h : FundsOK s) : FundsOK (dd_phase s) := by
  simpa [FundsOK] using h

/-- The pre-RM loan payment preserves the fund invariants. -/
lemma loan_pay_phase_funds (cfg : Cfg) (hv : ValidCfg cfg) (t : ℕ) (dd : ℚ)
    (s : PathState) (h : FundsOK s) : FundsOK (loan_pay_phase cfg t dd s) := by
  obtain ⟨h1, h2, h3, h4, h5, h6, h7⟩ := h
  unfold loan_pay_phase
  split_ifs with hg
  · refine ⟨take_from_arr_nonneg _ _ h1, take_from_arr_nonneg _ _ h2, ?_, ?_, h5, h6, h7⟩
    · simp only
      split_ifs with hc
      · have := min_le_right ((take_from s.risky
          (take_from s.base_treas (take_from s.cash (amort_pay cfg)).2).2).2) s.loan_bucket
        linarith
      · linarith
    · simp only
      split_ifs with hk
      · exact hv.sched _
      · exact le_refl 0
  · exact ⟨h1, h2, h3, h4, h5, h6, h7⟩

/-- Away from the opening year the RM-open phase is the identity. -/
lemma rm_open_phase_ne (cfg : Cfg) (t : ℕ) (dd : ℚ) (s : PathState)
    (h : (t : ℤ) ≠ rm_open_t cfg) : rm_open_phase cfg t dd s = s := by
  simp [rm_open_phase, h]

/-- The RM-open phase preserves the fund invariants, provided the RM
balance is still zero when the line opens. -/
lemma rm_open_phase_funds (cfg : Cfg) (hv : ValidCfg cfg) (t : ℕ) (dd : ℚ)
    (s : PathState) (h : FundsOK s)
    (hz : (t : ℤ) = rm_open_t cfg → s.rm_bal = 0) :
    FundsOK (rm_open_phase cfg t dd s) := by
  obtain ⟨h1, h2, h3, h4, h5, h6, h7⟩ := h
  have hlim : 0 ≤ rm_limit_open cfg * (1 + cfg.rm_limit_real_growth) :=
    mul_nonneg (mul_nonneg hv.home hv.plf) (by linarith [hv.grow])
  rcases eq_or_ne (t : ℤ) (rm_open_t cfg) with ho | ho
  swap
  · rw [rm_open_phase_ne cfg t dd s ho]
    exact ⟨h1, h2, h3, h4, h5, h6, h7⟩
  have hb0 : s.rm_bal = 0 := hz ho
  have havail : max 0 (rm_limit_open cfg * (1 + cfg.rm_limit_real_growth) - s.rm_bal) =
      rm_limit_open cfg * (1 + cfg.rm_limit_real_growth) - s.rm_bal := by
    rw [hb0]; simpa using hlim
  simp only [rm_open_phase, if_pos ho]
  by_cases hl : 0 < cfg.loan_amount
  · simp only [if_pos hl]
    by_cases hr : dd ≤ cfg.payoff_dd_threshold
    · simp only [if_pos hr]
      have hp1 : 0 ≤ (take_from s.risky s.loan_bal).2 := take_from_amt_nonneg _ _ h4
      have htk1 : 0 ≤ min (take_from s.risky s.loan_bal).2
          (max 0 (rm_limit_open cfg * (1 + cfg.rm_limit_real_growth) - s.rm_bal)) :=
        le_min hp1 (le_max_left _ _)
      have htk2 : min (take_from s.risky s.loan_bal).2
          (max 0 (rm_limit_open cfg * (1 + cfg.rm_limit_real_growth) - s.rm_bal)) ≤
          rm_limit_open cfg * (1 + cfg.rm_limit_real_growth) - s.rm_bal := by
        rw [havail]
        exact min_le_right _ _
      refine ⟨?_, ?_, ?_, le_refl 0, ?_, ?_, hlim⟩
      · exact take_from_arr_nonneg _ _ h1
      · exact take_from_arr_nonneg _ _ h2
      · exact take_from_arr_nonneg _ _ h3
      · dsimp only
        linarith
      · dsimp only
        linarith
    · simp only [if_neg hr]
      have htk1 : 0 ≤ min s.loan_bal
          (max 0 (rm_limit_open cfg * (1 + cfg.rm_limit_real_growth) - s.rm_bal)) :=
        le_min h4 (le_max_left _ _)
      have htk2 : min s.loan_bal
          (max 0 (rm_limit_open cfg * (1 + cfg.rm_limit_real_growth) - s.rm_bal)) ≤
          rm_limit_open cfg * (1 + cfg.rm_limit_real_growth) - s.rm_bal := by
        rw [havail]
        exact min_le_right _ _
      refine ⟨?_, ?_, ?_, le_refl 0, ?_, ?_, hlim⟩
      · exact take_from_arr_nonneg _ _ h1
      · exact take_from_arr_nonneg _ _ h2
      · exact take_from_arr_nonneg _ _ h3
      · dsimp only
        linarith
      · dsimp only
        linarith
  · simp only [if_neg hl]
    exact ⟨h1, h2, h3, h4, h5, by rw [hb0]; exact hlim, hlim⟩

/-- RM accrual preserves the fund invariants when the balance rate does not
exceed the limit growth rate. -/
lemma rm_accrual_phase_funds (cfg : Cfg) (hv : ValidCfg cfg) (t : ℕ) (s : PathState)
    (h : FundsOK s) : FundsOK (rm_accrual_phase cfg t s) := by
  obtain ⟨h1, h2, h3, h4, h5, h6, h7⟩ := h
  unfold rm_accrual_phase
  split_ifs
  · refine ⟨h1, h2, h3, h4, ?_, ?_, ?_⟩
    · exact mul_nonneg h5 (by linarith [hv.br])
    · calc s.rm_bal * (1 + cfg.rm_bal_real_rate) ≤
          s.rm_bal * (1 + cfg.rm_limit_real_growth) :=
            mul_le_mul_of_nonneg_left (by linarith [hv.brg]) h5
        _ ≤ s.rm_limit * (1 + cfg.rm_limit_real_growth) :=
            mul_le_mul_of_nonneg_right h6 (by linarith [hv.grow])
    · exact mul_nonneg h7 (by linarith [hv.grow])
  · exact ⟨h1, h2, h3, h4, h5, h6, h7⟩

/-- Income application preserves the fund invariants (it only adds the
nonnegative surplus to cash, base and risky). -/
lemma income_phase_funds (cfg : Cfg) (n t : ℕ) (dd : ℚ) (s : PathState)
    (h : FundsOK s) : FundsOK (income_phase cfg n t dd s).1 := by
  obtain ⟨h1, h2, h3, h4, h5, h6, h7⟩ := h
  have hs : (0 : ℚ) ≤ max 0 (income_scalar cfg t - desired_spend cfg t dd) :=
    le_max_left _ _
  have hac0 : (0 : ℚ) ≤ min (max 0 ((safe_targets cfg n t).1 - s.cash))
      (max 0 (income_scalar cfg t - desired_spend cfg t dd)) :=
    le_min (le_max_left _ _) hs
  have hac1 : min (max 0 ((safe_targets cfg n t).1 - s.cash))
      (max 0 (income_scalar cfg t - desired_spend cfg t dd)) ≤
      max 0 (income_scalar cfg t - desired_spend cfg t dd) := min_le_right _ _
  have hab0 : (0 : ℚ) ≤ min (max 0 ((safe_targets cfg n t).2 - s.base_treas))
      (max 0 (income_scalar cfg t - desired_spend cfg t dd) -
        min (max 0 ((safe_targets cfg n t).1 - s.cash))
          (max 0 (income_scalar cfg t - desired_spend cfg t dd))) :=
    le_min (le_max_left _ _) (by linarith)
  simp only [income_phase]
  split_ifs
  · exact ⟨h1, h2, h3, h4, h5, h6, h7⟩
  · refine ⟨?_, ?_, h3, h4, h5, h6, h7⟩
    · dsimp only
      linarith
    · dsimp only
      linarith
  · exact ⟨h1, h2, h3, h4, h5, h6, h7⟩

/-- The floor requirement handed to the spend phase is nonnegative. -/
lemma income_phase_fna_nonneg (cfg : Cfg) (hv : ValidCfg cfg) (n t : ℕ) (dd : ℚ)
    (s : PathState) : 0 ≤ (income_phase cfg n t dd s).2.2 := by
  have hfa : 0 ≤ floor_assets cfg t := by
    unfold floor_assets
    split_ifs
    · exact mul_nonneg hv.fl hv.pyf
    · exact hv.fl
  simp only [income_phase]
  split_ifs <;> simp [hfa, le_max_left]

/-- Funding leg (a) preserves the fund invariants and a nonnegative
remainder. -/
lemma fund_cash_funds (sr : PathState × ℚ) (h : FundsOK sr.1) (hr : 0 ≤ sr.2) :
    FundsOK (fund_cash sr).1 ∧ 0 ≤ (fund_cash sr).2 := by
  obtain ⟨h1, h2, h3, h4, h5, h6, h7⟩ := h
  exact ⟨⟨take_from_arr_nonneg _ _ h1, h2, h3, h4, h5, h6, h7⟩,
    take_from_amt_nonneg _ _ hr⟩

/-- Funding leg (b) preserves the fund invariants and a nonnegative
remainder. -/
lemma fund_base_funds (sr : PathState × ℚ) (h : FundsOK sr.1) (hr : 0 ≤ sr.2) :
    FundsOK (fund_base sr).1 ∧ 0 ≤ (fund_base sr).2 := by
  obtain ⟨h1, h2, h3, h4, h5, h6, h7⟩ := h
  exact ⟨⟨h1, take_from_arr_nonneg _ _ h2, h3, h4, h5, h6, h7⟩,
    take_from_amt_nonneg _ _ hr⟩

/-- Funding leg (c) preserves the fund invariants and a nonnegative
remainder (the partial cover lies in `[0,1]`). -/
lemma fund_lb1_funds (cfg : Cfg) (hv : ValidCfg cfg) (dd : ℚ) (f : Bool)
    (sr : PathState × ℚ) (h : FundsOK sr.1) (hr : 0 ≤ sr.2) :
    FundsOK (fund_lb1 cfg dd f sr).1 ∧ 0 ≤ (fund_lb1 cfg dd f sr).2 := by
  obtain ⟨h1, h2, h3, h4, h5, h6, h7⟩ := h
  simp only [fund_lb1]
  split_ifs with hc
  · have hcov : 0 ≤ sr.2 * cfg.loan_bucket_part_cover :=
      mul_nonneg hr hv.lbc0
    have hcov' : sr.2 * cfg.loan_bucket_part_cover ≤ sr.2 :=
      mul_le_of_le_one_right hr hv.lbc1
    have htk0 : 0 ≤ min (sr.2 * cfg.loan_bucket_part_cover) sr.1.loan_bucket :=
      le_min hcov h3
    have htk1 : min (sr.2 * cfg.loan_bucket_part_cover) sr.1.loan_bucket ≤
        sr.1.loan_bucket := min_le_right _ _
    have htk2 : min (sr.2 * cfg.loan_bucket_part_cover) sr.1.loan_bucket ≤
        sr.2 * cfg.loan_bucket_part_cover := min_le_left _ _
    refine ⟨⟨h1, h2, ?_, h4, h5, h6, h7⟩, ?_⟩
    · dsimp only
      linarith
    · dsimp only
      linarith
  · refine ⟨⟨h1, h2, ?_, h4, h5, h6, h7⟩, ?_⟩
    · dsimp only
      linarith
    · dsimp only
      linarith

/-- Funding leg (d) preserves the fund invariants and a nonnegative
remainder (the RM partial cover lies in `[0,1]`). -/
lemma fund_rm1_funds (cfg : Cfg) (hv : ValidCfg cfg) (dd : ℚ) (f : Bool)
    (sr : PathState × ℚ) (h : FundsOK sr.1) (hr : 0 ≤ sr.2) :
    FundsOK (fund_rm1 cfg dd f sr).1 ∧ 0 ≤ (fund_rm1 cfg dd f sr).2 := by
  obtain ⟨h1, h2, h3, h4, h5, h6, h7⟩ := h
  have havail : max 0 (sr.1.rm_limit - sr.1.rm_bal) = sr.1.rm_limit - sr.1.rm_bal :=
    max_eq_right (by linarith)
  simp only [fund_rm1]
  split_ifs with hc
  · have hcov : 0 ≤ sr.2 * cfg.rm_part_cover := mul_nonneg hr hv.rmc0
    have hcov' : sr.2 * cfg.rm_part_cover ≤ sr.2 :=
      mul_le_of_le_one_right hr hv.rmc1
    have htk0 : 0 ≤ min (sr.2 * cfg.rm_part_cover)
        (max 0 (sr.1.rm_limit - sr.1.rm_bal)) := le_min hcov (le_max_left _ _)
    have htk1 : min (sr.2 * cfg.rm_part_cover) (max 0 (sr.1.rm_limit - sr.1.rm_bal)) ≤
        sr.1.rm_limit - sr.1.rm_bal := by
      rw [havail]
      exact min_le_right _ _
    have htk2 : min (sr.2 * cfg.rm_part_cover) (max 0 (sr.1.rm_limit - sr.1.rm_bal)) ≤
        sr.2 * cfg.rm_part_cover := min_le_left _ _
    refine ⟨⟨h1, h2, h3, h4, ?_, ?_, h7⟩, ?_⟩ <;> (dsimp only; linarith)
  · refine ⟨⟨h1, h2, h3, h4, ?_, ?_, h7⟩, ?_⟩ <;> (dsimp only; linarith)

/-- Funding leg (e) preserves the fund invariants and a nonnegative
remainder. -/
lemma fund_risky_funds (sr : PathState × ℚ) (h : FundsOK sr.1) (hr : 0 ≤ sr.2) :
    FundsOK (fund_risky sr).1 ∧ 0 ≤ (fund_risky sr).2 := by
  obtain ⟨h1, h2, h3, h4, h5, h6, h7⟩ := h
  exact ⟨⟨h1, h2, h3, h4, h5, h6, h7⟩, take_from_amt_nonneg _ _ hr⟩

/-- Funding leg (f) preserves the fund invariants and a nonnegative
remainder. -/
lemma fund_rm2_funds (sr : PathState × ℚ) (h : FundsOK sr.1) (hr : 0 ≤ sr.2) :
    FundsOK (fund_rm2 sr).1 ∧ 0 ≤ (fund_rm2 sr).2 := by
  obtain ⟨h1, h2, h3, h4, h5, h6, h7⟩ := h
  have havail : max 0 (sr.1.rm_limit - sr.1.rm_bal) = sr.1.rm_limit - sr.1.rm_bal :=
    max_eq_right (by linarith)
  have htk0 : 0 ≤ min sr.2 (max 0 (sr.1.rm_limit - sr.1.rm_bal)) :=
    le_min hr (le_max_left _ _)
  have htk1 : min sr.2 (max 0 (sr.1.rm_limit - sr.1.rm_bal)) ≤
      sr.1.rm_limit - sr.1.rm_bal := by
    rw [havail]
    exact min_le_right _ _
  have htk2 : min sr.2 (max 0 (sr.1.rm_limit - sr.1.rm_bal)) ≤ sr.2 := min_le_left _ _
  simp only [fund_rm2]
  refine ⟨⟨h1, h2, h3, h4, ?_, ?_, h7⟩, ?_⟩ <;> (dsimp only; linarith)

/-- Funding leg (g) preserves the fund invariants and a nonnegative
remainder. -/
lemma fund_lb2_funds (cfg : Cfg) (dd : ℚ) (f : Bool) (sr : PathState × ℚ)
    (h : FundsOK sr.1) (hr : 0 ≤ sr.2) :
    FundsOK (fund_lb2 cfg dd f sr).1 ∧ 0 ≤ (fund_lb2 cfg dd f sr).2 := by
  obtain ⟨h1, h2, h3, h4, h5, h6, h7⟩ := h
  simp only [fund_lb2]
  split_ifs with hc
  · have htk0 : 0 ≤ min sr.2 sr.1.loan_bucket := le_min hr h3
    have htk1 : min sr.2 sr.1.loan_bucket ≤ sr.1.loan_bucket := min_le_right _ _
    have htk2 : min sr.2 sr.1.loan_bucket ≤ sr.2 := min_le_left _ _
    refine ⟨⟨h1, h2, ?_, h4, h5, h6, h7⟩, ?_⟩ <;> (dsimp only; linarith)
  · refine ⟨⟨h1, h2, ?_, h4, h5, h6, h7⟩, ?_⟩ <;> (dsimp only; linarith)

set_option maxHeartbeats 1600000 in
/-- The spend/funding phase preserves the fund invariants (for a
nonnegative floor requirement and valid partial covers). -/
lemma spend_phase_funds (cfg : Cfg) (hv : ValidCfg cfg) (t : ℕ)
    (dd mf ad fna : ℚ) (s : PathState) (h : FundsOK s) (hfna : 0 ≤ fna) :
    FundsOK (spend_phase cfg t dd mf ad fna s) := by
  obtain ⟨h1, h2, h3, h4, h5, h6, h7⟩ := h
  simp only [spend_phase]
  set f' := (if s.failed = false ∧ mf < fna - eps then true else s.failed) with hf
  set fi' := (if s.failed = false ∧ mf < fna - eps then t else s.fail_idx) with hfi
  have hs0 : FundsOK { s with
      failed := f'
      fail_idx := fi' } :=
    ⟨h1, h2, h3, h4, h5, h6, h7⟩
  have hsa : (0:ℚ) ≤ (if f' = false then max (min ad mf) fna else 0) := by
    split_ifs <;> first
      | exact le_trans hfna (le_max_right _ _)
      | exact le_refl 0
  have hc := fund_cash_funds
    ({ s with
        failed := f'
        fail_idx := fi' },
     if f' = false then max (min ad mf) fna else 0) hs0 hsa
  have hb := fund_base_funds _ hc.1 hc.2
  have hl1 := fund_lb1_funds cfg hv dd f' _ hb.1 hb.2
  have hr1 := fund_rm1_funds cfg hv dd f' _ hl1.1 hl1.2
  have hrk := fund_risky_funds _ hr1.1 hr1.2
  have hr2 := fund_rm2_funds _ hrk.1 hrk.2
  exact (fund_lb2_funds cfg dd f' _ hr2.1 hr2.2).1

/-- The reserve refill preserves the fund invariants. -/
lemma refill_phase_funds (cfg : Cfg) (n t : ℕ) (dd : ℚ) (s : PathState)
    (h : FundsOK s) : FundsOK (refill_phase cfg n t dd s) := by
  obtain ⟨h1, h2, h3, h4, h5, h6, h7⟩ := h
  simp only [refill_phase]
  split_ifs with hg
  · refine ⟨?_, ?_, h3, h4, h5, h6, h7⟩ <;>
      (dsimp only
       have ha := le_min (le_max_left 0 ((safe_targets cfg n t).1 - s.cash))
         (le_max_right s.risky 0)
       have hb := le_min (le_max_left 0 ((safe_targets cfg n t).2 - s.base_treas))
         (le_max_right (s.risky - min (max 0 ((safe_targets cfg n t).1 - s.cash))
           (max s.risky 0)) 0)
       linarith)
  · refine ⟨?_, ?_, h3, h4, h5, h6, h7⟩ <;> (dsimp only; linarith)

/-- The RM repayment preserves the fund invariants (repay rate in `[0,1]`). -/
lemma rm_repay_phase_funds (cfg : Cfg) (hv : ValidCfg cfg) (dd : ℚ) (s : PathState)
    (h : FundsOK s) : FundsOK (rm_repay_phase cfg dd s) := by
  obtain ⟨h1, h2, h3, h4, h5, h6, h7⟩ := h
  simp only [rm_repay_phase]
  split_ifs with hc
  · have hamt0 : 0 ≤ s.rm_bal * cfg.rm_repay_rate := mul_nonneg h5 hv.rr0
    have hamt1 : s.rm_bal * cfg.rm_repay_rate ≤ s.rm_bal :=
      mul_le_of_le_one_right h5 hv.rr1
    have htk0 : 0 ≤ min (s.rm_bal * cfg.rm_repay_rate) (max s.risky 0) :=
      le_min hamt0 (le_max_right _ _)
    have htk1 : min (s.rm_bal * cfg.rm_repay_rate) (max s.risky 0) ≤
        s.rm_bal * cfg.rm_repay_rate := min_le_left _ _
    refine ⟨h1, h2, h3, h4, ?_, ?_, h7⟩ <;> (dsimp only; linarith)
  · have htk : min 0 (max s.risky 0) = 0 := min_eq_left (le_max_right _ _)
    refine ⟨h1, h2, h3, h4, ?_, ?_, h7⟩ <;> (dsimp only; rw [htk]; linarith)

/-- The latch phase preserves the fund invariants. -/
lemma latch_phase_funds (s : PathState) (h : FundsOK s) : FundsOK (latch_phase s) := h

/-- The RM-usage latch in explicit form. -/
lemma latch_phase_ever (s : PathState) :
    (latch_phase s).rm_ever_used = if 0 < s.rm_bal then true else s.rm_ever_used := rfl

/-- One whole year preserves the fund invariants (provided an RM balance
of zero at the opening year, which the trajectory invariant supplies). -/
lemma step_year_funds (cfg : Cfg) (hv : ValidCfg cfg) (n t : ℕ) (R : ℚ)
    (s : PathState) (h : FundsOK s)
    (hz : (t : ℤ) = rm_open_t cfg → s.rm_bal = 0) :
    FundsOK (step_year cfg n t R s) := by
  simp only [step_year]
  set s1 := dd_phase (grow_phase cfg R s) with hs1
  set dd := path_drawdown s1 with hdd
  set s2 := loan_pay_phase cfg t dd s1 with hs2
  set s3 := rm_open_phase cfg t dd s2 with hs3
  set s4 := rm_accrual_phase cfg t s3 with hs4
  set mf := max_feasible cfg dd s4 with hmf
  set ia := income_phase cfg n t dd s4 with hia
  set s6 := spend_phase cfg t dd mf ia.2.1 ia.2.2 ia.1 with hs6
  set s7 := refill_phase cfg n t dd s6 with hs7
  have h1 : FundsOK s1 := dd_phase_funds _ (grow_phase_funds cfg hv R s h)
  have h2 : FundsOK s2 := loan_pay_phase_funds cfg hv t dd s1 h1
  have h3 : FundsOK s3 := rm_open_phase_funds cfg hv t dd s2 h2 (by
    intro ho
    simp only [hs2, hs1, loan_pay_phase_rm_bal, dd_phase_rm_bal, grow_phase_rm_bal]
    exact hz ho)
  have h4 : FundsOK s4 := rm_accrual_phase_funds cfg hv t s3 h3
  have h5 : FundsOK ia.1 := income_phase_funds cfg n t dd s4 h4
  have hfna : 0 ≤ ia.2.2 := income_phase_fna_nonneg cfg hv n t dd s4
  have h6 : FundsOK s6 := spend_phase_funds cfg hv t dd mf ia.2.1 ia.2.2 ia.1 h5 hfna
  have h7 : FundsOK s7 := refill_phase_funds cfg n t dd s6 h6
  exact latch_phase_funds _ (rm_repay_phase_funds cfg hv dd s7 h7)

/-- Before the RM opening year a whole year leaves `rm_limit` unchanged. -/
lemma step_year_rm_limit_pre (cfg : Cfg) (n t : ℕ) (R : ℚ) (s : PathState)
    (ht : (t : ℤ) < rm_open_t cfg) :
    (step_year cfg n t R s).rm_limit = s.rm_limit := by
  simp only [step_year, latch_phase_rm_limit, rm_repay_phase_rm_limit,
    refill_phase_rm_limit, spend_phase_rm_limit, income_phase_rm_limit]
  rw [rm_open_phase_ne cfg t _ _ (ne_of_lt ht)]
  unfold rm_accrual_phase
  rw [if_neg (not_le.mpr ht)]
  simp only [loan_pay_phase_rm_limit, dd_phase_rm_limit, grow_phase_rm_limit]

/-- Across one whole year the latch fires exactly on a positive end-of-year
RM balance (every phase before the latch preserves `rm_ever_used`). -/
lemma step_year_ever (cfg : Cfg) (n t : ℕ) (R : ℚ) (s : PathState) :
    (step_year cfg n t R s).rm_ever_used =
      if 0 < (step_year cfg n t R s).rm_bal then true else s.rm_ever_used := by
  simp only [step_year, latch_phase_ever, latch_phase_rm_bal, rm_repay_phase_rm_ever,
    refill_phase_rm_ever, spend_phase_rm_ever, income_phase_rm_ever,
    rm_accrual_phase_rm_ever, rm_open_phase_rm_ever, loan_pay_phase_rm_ever,
    dd_phase_rm_ever, grow_phase_rm_ever]

/-- The year-0 safe targets are nonnegative under the validity assumptions. -/
lemma safe_targets_nonneg (cfg : Cfg) (hv : ValidCfg cfg) (n t : ℕ) :
    0 ≤ (safe_targets cfg n t).1 ∧ 0 ≤ (safe_targets cfg n t).2 := by
  have htot : 0 ≤ cfg.reserve_years * build_withdrawals cfg (min (t + 1) (n - 1)) :=
    mul_nonneg hv.ry (build_withdrawals_nonneg _ _)
  constructor
  · exact mul_nonneg hv.rcf0 htot
  · simp only [safe_targets]
    nlinarith [mul_nonneg (sub_nonneg.mpr hv.rcf1) htot]

/-- The initial state satisfies the fund invariants. -/
lemma init_state_funds (cfg : Cfg) (hv : ValidCfg cfg) (n : ℕ) :
    FundsOK (init_state cfg n) := by
  obtain ⟨ht1, ht2⟩ := safe_targets_nonneg cfg hv n 0
  have hsafe : 0 ≤ min ((safe_targets cfg n 0).1 + (safe_targets cfg n 0).2)
      cfg.start_portfolio := le_min (by linarith) hv.sp
  have hlb : (0 : ℚ) ≤ (if 0 < cfg.loan_amount then (cfg.loan_amount : ℚ) else 0) := by
    split_ifs with hl
    · exact_mod_cast le_of_lt hl
    · exact le_refl 0
  simp only [init_state]
  exact ⟨le_min ht1 hsafe, le_max_left _ _, hlb, hlb, le_refl 0, le_refl 0, le_refl 0⟩

/-- Unfolding: a simulated year. -/
lemma state_after_succ_lt (cfg : Cfg) (n : ℕ) (rets : List ℚ) (T : ℕ)
    (h : T < rets.length) :
    state_after cfg n rets (T + 1) =
      step_year cfg n T (rets.getD T 0) (state_after cfg n rets T) := by
  simp [state_after, h]

/-- Unfolding: a year beyond the return row. -/
lemma state_after_succ_ge (cfg : Cfg) (n : ℕ) (rets : List ℚ) (T : ℕ)
    (h : ¬ T < rets.length) :
    state_after cfg n rets (T + 1) = state_after cfg n rets T := by
  simp [state_after, h]

/-- Trajectory invariant for C3: the fund invariants hold after every year;
before the RM opening year both `rm_bal` and `rm_limit` are `0`; a positive
RM balance implies the latch; and the latch holds exactly when some already
simulated year at or past the opening ended with a positive RM balance. -/
lemma state_after_invariant (cfg : Cfg) (hv : ValidCfg cfg) (n : ℕ)
    (rets : List ℚ) (T : ℕ) :
    FundsOK (state_after cfg n rets T) ∧
    ((T : ℤ) ≤ rm_open_t cfg → (state_after cfg n rets T).rm_bal = 0 ∧
      (state_after cfg n rets T).rm_limit = 0) ∧
    (0 < (state_after cfg n rets T).rm_bal →
      (state_after cfg n rets T).rm_ever_used = true) ∧
    ((state_after cfg n rets T).rm_ever_used = true ↔
      ∃ t' : ℕ, t' < T ∧ rm_open_t cfg ≤ (t' : ℤ) ∧
        0 < (state_after cfg n rets (t' + 1)).rm_bal) := by
  induction T with
  | zero =>
    have hb : (state_after cfg n rets 0).rm_bal = 0 := rfl
    have he : (state_after cfg n rets 0).rm_ever_used = false := rfl
    refine ⟨init_state_funds cfg hv n, fun _ => ⟨rfl, rfl⟩, ?_, ?_⟩
    · intro h
      rw [hb] at h
      exact absurd h (lt_irrefl 0)
    · constructor
      · intro h
        rw [he] at h
        exact absurd h (by simp)
      · rintro ⟨t', ht', -⟩
        exact absurd ht' (Nat.not_lt_zero t')
  | succ T ih =>
    obtain ⟨ihF, ihZ, ihB, ihE⟩ := ih
    by_cases hlt : T < rets.length
    · have hstep := state_after_succ_lt cfg n rets T hlt
      have hz : (T : ℤ) = rm_open_t cfg → (state_after cfg n rets T).rm_bal = 0 :=
        fun ho => (ihZ (le_of_eq ho)).1
      have hF : FundsOK (state_after cfg n rets (T + 1)) := by
        rw [hstep]
        exact step_year_funds cfg hv n T _ _ ihF hz
      have hev := step_year_ever cfg n T (rets.getD T 0) (state_after cfg n rets T)
      rw [← hstep] at hev
      have hZ1 : ((T + 1 : ℕ) : ℤ) ≤ rm_open_t cfg →
          (state_after cfg n rets (T + 1)).rm_bal = 0 ∧
          (state_after cfg n rets (T + 1)).rm_limit = 0 := by
        intro hle
        have hTlt : (T : ℤ) < rm_open_t cfg := by omega
        have hlim0 : (state_after cfg n rets (T + 1)).rm_limit = 0 := by
          rw [hstep, step_year_rm_limit_pre cfg n T _ _ hTlt]
          exact (ihZ (by omega)).2
        have h6 := hF.2.2.2.2.2.1
        rw [hlim0] at h6
        exact ⟨le_antisymm h6 hF.2.2.2.2.1, hlim0⟩
      have hB1 : 0 < (state_after cfg n rets (T + 1)).rm_bal →
          (state_after cfg n rets (T + 1)).rm_ever_used = true := by
        intro hb
        rw [hev, if_pos hb]
      refine ⟨hF, hZ1, hB1, ?_⟩
      constructor
      · intro he
        by_cases hb : 0 < (state_after cfg n rets (T + 1)).rm_bal
        · refine ⟨T, Nat.lt_succ_self T, ?_, hb⟩
          by_contra ho
          push_neg at ho
          have hb0 := (hZ1 (by omega)).1
          rw [hb0] at hb
          exact absurd hb (lt_irrefl 0)
        · rw [hev, if_neg hb] at he
          obtain ⟨t', ht', ho, hbb⟩ := ihE.mp he
          exact ⟨t', by omega, ho, hbb⟩
      · rintro ⟨t', ht', ho, hb⟩
        rcases Nat.lt_succ_iff_lt_or_eq.mp ht' with hc | hc
        · have he := ihE.mpr ⟨t', hc, ho, hb⟩
          rw [hev]
          split_ifs with hcc
          · rfl
          · exact he
        · subst hc
          exact hB1 hb
    · have hid := state_after_succ_ge cfg n rets T hlt
      rw [hid]
      refine ⟨ihF, fun hle => ihZ (by omega), ihB, ?_⟩
      constructor
      · intro he
        obtain ⟨t', ht', ho, hb⟩ := ihE.mp he
        exact ⟨t', by omega, ho, hb⟩
      · rintro ⟨t', ht', ho, hb⟩
        rcases Nat.lt_succ_iff_lt_or_eq.mp ht' with hc | hc
        · exact ihE.mpr ⟨t', hc, ho, hb⟩
        · subst hc
          rw [hid] at hb
          exact ihB hb

/-- An accepted configuration whose RM balance accrual rate (`1/2`)
exceeds the credit-limit growth rate (`0`): the line opens at `t = 0`
with limit `50`, the year-0 shortfall draws the full `50`, and the year-1
accrual pushes the balance to `75` past the unchanged limit `50`. -/
def cfgC3x : Cfg :=
  { cfg0 with
    rm_open_age := 60
    home_value_real := 125
    rm_plf_at_open := 2/5
    rm_bal_real_rate := 1/2
    E := 100 }

set_option maxHeartbeats 1000000 in
/-- C3 counterexample: `rm_bal ≤ rm_limit` is not an unconditional
end-of-year invariant of the kernel — with `rm_bal_real_rate >
rm_limit_real_growth` (a configuration nothing rejects) the balance
accrues past the limit. -/
theorem C3_counterexample :
    ¬ ((state_after cfgC3x 2 [0, 0] 2).rm_bal ≤
        (state_after cfgC3x 2 [0, 0] 2).rm_limit) := by
  decide

/-- C3 (amended): under the validity assumptions `ValidCfg` — in
particular `rm_bal_real_rate ≤ rm_limit_real_growth` — after every year
of the kernel loop each path has `cash, base_treas, loan_bucket, loan_bal,
rm_bal, rm_limit ≥ 0` and `rm_bal ≤ rm_limit`, and `rm_ever_used` holds
iff some already simulated year at or past `rm_open_t` ended with a
positive RM balance. -/
theorem C3_amended (cfg : Cfg) (hv : ValidCfg cfg) (n : ℕ) (rets : List ℚ)
    (T : ℕ) :
    FundsOK (state_after cfg n rets T) ∧
    ((state_after cfg n rets T).rm_ever_used = true ↔
      ∃ t' : ℕ, t' < T ∧ rm_open_t cfg ≤ (t' : ℤ) ∧
        0 < (state_after cfg n rets (t' + 1)).rm_bal) := by
  obtain ⟨hF, -, -, hE⟩ := state_after_invariant cfg hv n rets T
  exact ⟨hF, hE⟩

/-- C3 witness: the amended invariant instantiated at the baseline
configuration over one simulated year, the validity hypothesis discharged
field by field. -/
theorem C3_amended_witness :
    FundsOK (state_after cfg0 1 [0] 1) ∧
    ((state_after cfg0 1 [0] 1).rm_ever_used = true ↔
      ∃ t' : ℕ, t' < 1 ∧ rm_open_t cfg0 ≤ (t' : ℤ) ∧
        0 < (state_after cfg0 1 [0] (t' + 1)).rm_bal) :=
  C3_amended cfg0
    (by
      constructor <;> first
        | decide
        | (intro k; simp [loan_balance_after_k, cfg0])) 1 [0] 1
